import Mathlib

/-!
# Player physics and animation-state step of `skeletal_animation.cpp`

A shallow embedding of `Player::updatePhysics` (lines 48-86) and of the clip
selector of the frame loop in `main` (lines 259-267).

Numbers.  The C++ code computes in `float`.  The step is embedded twice over a
linearly ordered field `K`.

* `updatePhysics` computes with the exact field operations; the literal
  `1e-6f` is the field element `1/1000000`.
* `updatePhysicsR` passes the result of every addition, subtraction,
  multiplication and division through a rounding function `fl`; the literal
  `1e-6f` is `fl (1/1000000)`.  With `fl` the identity it is `updatePhysics`;
  with `fl32`, rounding to 24 significant bits, to nearest, ties to even, it is
  the `float` computation as long as no result overflows or is subnormal.

Infinities, NaN and signed zero are not represented in either.

Library calls.  `glm::length2`, `glm::normalize` and vector arithmetic are
written out over `K`.  The three scalar routines the step calls and that are
not field operations (`sqrt` inside `glm::normalize`, `atan2`, `glm::degrees`)
are taken as a parameter `M : MathLib K`; theorems that depend on what these
routines return say so in a hypothesis.  `std::cout << yaw` is an output
effect only and is not modelled.
-/

namespace SkeletalAnimation

/-! ## Data model -/

/-- Three-component vector, `glm::vec3`. -/
structure Vec3 (K : Type) where
  x : K
  y : K
  z : K
deriving DecidableEq, Repr

/-- The global `input` sample (lines 29-33). -/
structure Input (K : Type) where
  axisRight : K
  axisForward : K
  jumpPressed : Bool
deriving DecidableEq, Repr

/-- Animation state, `enum class AnimState` (line 36). -/
inductive AnimState where
  | Idle
  | Running
  | Jumping
deriving DecidableEq, Repr

/-- The `Player` record (lines 38-46). -/
structure Player (K : Type) where
  pos : Vec3 K
  vel : Vec3 K
  yaw : K
  moveSpeed : K
  jumpSpeed : K
  gravity : K
  onGround : Bool
  state : AnimState
deriving DecidableEq, Repr

/-- Scalar library routines used by the step: `sqrt` (through
`glm::normalize`), `atan2` and `glm::degrees`. -/
structure MathLib (K : Type) where
  sqrt : K → K
  atan2 : K → K → K
  degrees : K → K

section Defs

variable {K : Type} [LinearOrderedField K]

/-- The threshold `1e-6f` of lines 52 and 83. -/
def eps : K := 1 / 1000000

/-- Squared length, `glm::length2 v = dot v v`. -/
def length2 (v : Vec3 K) : K := v.x * v.x + v.y * v.y + v.z * v.z

/-- Scaling of a vector, `v * s`. -/
def Vec3.scale (v : Vec3 K) (s : K) : Vec3 K := ⟨v.x * s, v.y * s, v.z * s⟩

/-- Component-wise sum, `a + b`. -/
def Vec3.add (a b : Vec3 K) : Vec3 K := ⟨a.x + b.x, a.y + b.y, a.z + b.z⟩

/-- The function `glm::inversesqrt x = 1 / sqrt x`. -/
def inversesqrt (M : MathLib K) (x : K) : K := 1 / M.sqrt x

/-- The function `glm::normalize v = v * inversesqrt (dot v v)`. -/
def normalize (M : MathLib K) (v : Vec3 K) : Vec3 K :=
  v.scale (inversesqrt M (length2 v))

/-- Euclidean length `glm::length v = sqrt (dot v v)`. -/
def length (M : MathLib K) (v : Vec3 K) : K := M.sqrt (length2 v)

/-- The struct's default member initialisers (lines 39-46). -/
def Player.default : Player K :=
  { pos := ⟨0, 0, 0⟩, vel := ⟨0, 0, 0⟩, yaw := 0, moveSpeed := 7 / 2,
    jumpSpeed := 5, gravity := 12, onGround := true, state := AnimState.Idle }

/-- The player as the frame loop first sees it: the defaults, with
`player.yaw = 180.0f` (line 230). -/
def Player.initial : Player K := { (Player.default : Player K) with yaw := 180 }

/-- The facing-angle adjustment of lines 57-59. -/
def snapYaw (yaw : K) : K :=
  if yaw = 0 ∨ yaw = 180 then yaw + 180
  else if yaw = 45 ∨ yaw = -135 then yaw + 90
  else if yaw = -45 ∨ yaw = 135 then yaw - 90
  else yaw

/-- Local variables of `updatePhysics` that live across its statements,
together with the player being mutated. -/
structure Frame (K : Type) where
  wish : Vec3 K
  horizVel : Vec3 K
  player : Player K

/-- Lines 49-64: wish direction, horizontal velocity, facing angle and the
Running / Idle choice for a grounded player. -/
def steer (M : MathLib K) (input : Input K) (p : Player K) : Frame K :=
  let wish : Vec3 K := ⟨input.axisRight, 0, -input.axisForward⟩
  if length2 wish > eps then
    let wish := normalize M wish
    let horizVel := wish.scale p.moveSpeed
    let yaw := snapYaw (M.degrees (M.atan2 wish.x (-wish.z)))
    { wish := wish, horizVel := horizVel,
      player := { p with yaw := yaw,
                         state := if p.onGround then AnimState.Running else p.state } }
  else
    { wish := wish, horizVel := ⟨0, 0, 0⟩,
      player := if p.onGround then { p with state := AnimState.Idle } else p }

/-- Lines 66-70: the jump. -/
def jump (input : Input K) (p : Player K) : Player K :=
  if input.jumpPressed && p.onGround then
    { p with vel := { p.vel with y := p.jumpSpeed }, onGround := false,
             state := AnimState.Jumping }
  else p

/-- Line 72: gravity acts on an airborne player. -/
def applyGravity (p : Player K) (dt : K) : Player K :=
  if !p.onGround then { p with vel := { p.vel with y := p.vel.y - p.gravity * dt } }
  else p

/-- Lines 74-75: position integration. -/
def integrate (horizVel : Vec3 K) (p : Player K) (dt : K) : Player K :=
  let pos := p.pos.add (horizVel.scale dt)
  { p with pos := { pos with y := pos.y + p.vel.y * dt } }

/-- Lines 78-85: collision with the ground plane `y = 0`. -/
def collide (wish : Vec3 K) (p : Player K) : Player K :=
  if p.pos.y ≤ 0 then
    let p1 : Player K := { p with pos := { p.pos with y := 0 }, vel := { p.vel with y := 0 } }
    if !p1.onGround then
      { p1 with onGround := true,
                state := if length2 wish > eps then AnimState.Running else AnimState.Idle }
    else p1
  else p

/-- The player just before the ground test of line 78. -/
def beforeCollide (M : MathLib K) (input : Input K) (p : Player K) (dt : K) : Player K :=
  let f := steer M input p
  integrate f.horizVel (applyGravity (jump input f.player) dt) dt

/-- The method `Player::updatePhysics(dt)` (lines 48-86), reading the global
`input`. -/
def updatePhysics (M : MathLib K) (input : Input K) (p : Player K) (dt : K) : Player K :=
  collide (steer M input p).wish (beforeCollide M input p dt)

/-- Successive calls of `updatePhysics`, one per frame, each with its own
input sample and frame time. -/
def runFrames (M : MathLib K) (p : Player K) : List (Input K × K) → Player K
  | [] => p
  | (i, dt) :: rest => runFrames M (updatePhysics M i p dt) rest

/-! ## Clip selector of the frame loop -/

/-- The three preloaded clips (lines 225-227). -/
inductive Clip where
  | idleAnim
  | runAnim
  | jumpAnim
deriving DecidableEq, Repr

/-- The `switch` of lines 261-265. -/
def clipFor : AnimState → Clip
  | AnimState.Idle => Clip.idleAnim
  | AnimState.Running => Clip.runAnim
  | AnimState.Jumping => Clip.jumpAnim

/-- Lines 260-267 for one frame: the new `lastState` and the `PlayAnimation`
call made in this frame, if any. -/
def selectClip (lastState state : AnimState) : AnimState × Option Clip :=
  if state ≠ lastState then (state, some (clipFor state)) else (lastState, none)

/-- The selector over consecutive frames whose `player.state` values are
given: the final `lastState` and, frame by frame, the `PlayAnimation` call
made. -/
def selectClips (lastState : AnimState) : List AnimState → AnimState × List (Option Clip)
  | [] => (lastState, [])
  | s :: rest =>
    let r := selectClip lastState s
    let rs := selectClips r.1 rest
    (rs.1, r.2 :: rs.2)

/-- The scenario of a jump from rest: one frame with the jump flag set and no
axes, then `n` further frames with no input at all, every frame with the same
frame time `dt`. -/
def jumpFrames (dt : K) (n : Nat) : List (Input K × K) :=
  (⟨0, 0, true⟩, dt) :: List.replicate n (⟨0, 0, false⟩, dt)

/-- The library's `sqrt` is the exact square root on non-negative arguments. -/
def MathLib.ExactSqrt (M : MathLib K) : Prop :=
  ∀ x : K, 0 ≤ x → 0 ≤ M.sqrt x ∧ M.sqrt x * M.sqrt x = x

/-! ## The same step with rounded arithmetic

In the code every `float` addition, subtraction, multiplication and division
is rounded to the `float` format.  The definitions below repeat lines 48-86
with each such result passed through a rounding function `fl`; negation and
comparison are exact in the format and are left as they are.  With `fl` the
identity this is the step above. -/

/-- The literal `1e-6f`: the rounding of `1/1000000`. -/
def epsR (fl : K → K) : K := fl (1 / 1000000)

/-- Squared length `glm::length2 v = dot v v`, the products summed from the
left: `(x*x + y*y) + z*z`. -/
def length2R (fl : K → K) (v : Vec3 K) : K :=
  fl (fl (fl (v.x * v.x) + fl (v.y * v.y)) + fl (v.z * v.z))

/-- Scaling of a vector, each component rounded. -/
def Vec3.scaleR (fl : K → K) (v : Vec3 K) (s : K) : Vec3 K :=
  ⟨fl (v.x * s), fl (v.y * s), fl (v.z * s)⟩

/-- Component-wise sum, each component rounded. -/
def Vec3.addR (fl : K → K) (a b : Vec3 K) : Vec3 K :=
  ⟨fl (a.x + b.x), fl (a.y + b.y), fl (a.z + b.z)⟩

/-- The function `glm::inversesqrt x = 1 / sqrt x`, the quotient rounded. -/
def inversesqrtR (M : MathLib K) (fl : K → K) (x : K) : K := fl (1 / M.sqrt x)

/-- The function `glm::normalize v = v * inversesqrt (dot v v)`. -/
def normalizeR (M : MathLib K) (fl : K → K) (v : Vec3 K) : Vec3 K :=
  v.scaleR fl (inversesqrtR M fl (length2R fl v))

/-- The facing-angle adjustment of lines 57-59, the sums rounded. -/
def snapYawR (fl : K → K) (yaw : K) : K :=
  if yaw = 0 ∨ yaw = 180 then fl (yaw + 180)
  else if yaw = 45 ∨ yaw = -135 then fl (yaw + 90)
  else if yaw = -45 ∨ yaw = 135 then fl (yaw - 90)
  else yaw

/-- Lines 49-64 with rounded arithmetic. -/
def steerR (M : MathLib K) (fl : K → K) (input : Input K) (p : Player K) : Frame K :=
  let wish : Vec3 K := ⟨input.axisRight, 0, -input.axisForward⟩
  if length2R fl wish > epsR fl then
    let wish := normalizeR M fl wish
    let horizVel := wish.scaleR fl p.moveSpeed
    let yaw := snapYawR fl (M.degrees (M.atan2 wish.x (-wish.z)))
    { wish := wish, horizVel := horizVel,
      player := { p with yaw := yaw,
                         state := if p.onGround then AnimState.Running else p.state } }
  else
    { wish := wish, horizVel := ⟨0, 0, 0⟩,
      player := if p.onGround then { p with state := AnimState.Idle } else p }

/-- Line 72 with rounded arithmetic: `vel.y -= gravity * dt`. -/
def applyGravityR (fl : K → K) (p : Player K) (dt : K) : Player K :=
  if !p.onGround then
    { p with vel := { p.vel with y := fl (p.vel.y - fl (p.gravity * dt)) } }
  else p

/-- Lines 74-75 with rounded arithmetic: `pos += horizVel * dt` and then
`pos.y += vel.y * dt`. -/
def integrateR (fl : K → K) (horizVel : Vec3 K) (p : Player K) (dt : K) : Player K :=
  let pos := p.pos.addR fl (horizVel.scaleR fl dt)
  { p with pos := { pos with y := fl (pos.y + fl (p.vel.y * dt)) } }

/-- Lines 78-85 with the rounded squared length and threshold. -/
def collideR (fl : K → K) (wish : Vec3 K) (p : Player K) : Player K :=
  if p.pos.y ≤ 0 then
    let p1 : Player K := { p with pos := { p.pos with y := 0 }, vel := { p.vel with y := 0 } }
    if !p1.onGround then
      { p1 with onGround := true,
                state := if length2R fl wish > epsR fl then AnimState.Running
                         else AnimState.Idle }
    else p1
  else p

/-- The method `Player::updatePhysics(dt)` (lines 48-86) with every arithmetic
result rounded by `fl`. -/
def updatePhysicsR (M : MathLib K) (fl : K → K) (input : Input K) (p : Player K) (dt : K) :
    Player K :=
  let f := steerR M fl input p
  collideR fl f.wish (integrateR fl f.horizVel (applyGravityR fl (jump input f.player) dt) dt)

/-- Rounding of a number to the nearest integer, a tie going to the even
neighbour. -/
def roundEven [FloorRing K] (q : K) : ℤ :=
  if q - ⌊q⌋ < 1 / 2 then ⌊q⌋
  else if 1 / 2 < q - ⌊q⌋ then ⌊q⌋ + 1
  else if ⌊q⌋ % 2 = 0 then ⌊q⌋ else ⌊q⌋ + 1

/-- Rounding to the `float` format (IEEE binary32: 24 significant bits, to
nearest, ties to even).  The exponent range is taken unbounded, so overflow
and subnormal numbers are not represented. -/
def fl32 [FloorRing K] (x : K) : K :=
  if x = 0 then 0
  else (roundEven (x / 2 ^ (Int.log 2 |x| - 23)) : K) * 2 ^ (Int.log 2 |x| - 23)

end Defs

/-! ## Basic facts about the sub-steps -/

section Lemmas

variable {K : Type} [LinearOrderedField K]

theorem eps_pos : (0 : K) < eps := by
  unfold eps; positivity

theorem steer_onGround (M : MathLib K) (input : Input K) (p : Player K) :
    (steer M input p).player.onGround = p.onGround := by
  simp only [steer]
  split_ifs <;> rfl

theorem steer_vel (M : MathLib K) (input : Input K) (p : Player K) :
    (steer M input p).player.vel = p.vel := by
  simp only [steer]
  split_ifs <;> rfl

theorem steer_pos (M : MathLib K) (input : Input K) (p : Player K) :
    (steer M input p).player.pos = p.pos := by
  simp only [steer]
  split_ifs <;> rfl

theorem steer_consts (M : MathLib K) (input : Input K) (p : Player K) :
    (steer M input p).player.moveSpeed = p.moveSpeed ∧
    (steer M input p).player.jumpSpeed = p.jumpSpeed ∧
    (steer M input p).player.gravity = p.gravity := by
  simp only [steer]
  split_ifs <;> exact ⟨rfl, rfl, rfl⟩

theorem steer_horizVel_y (M : MathLib K) (input : Input K) (p : Player K) :
    (steer M input p).horizVel.y = 0 := by
  simp only [steer]
  split_ifs <;> simp [normalize, Vec3.scale]

theorem applyGravity_jump_vel_y (M : MathLib K) (input : Input K) (p : Player K) (dt : K) :
    (applyGravity (jump input (steer M input p).player) dt).vel.y =
      if p.onGround then
        (if input.jumpPressed then p.jumpSpeed - p.gravity * dt else p.vel.y)
      else p.vel.y - p.gravity * dt := by
  have h1 := steer_onGround M input p
  have h2 := steer_vel M input p
  obtain ⟨-, h3, h4⟩ := steer_consts M input p
  cases hg : p.onGround <;> cases hj : input.jumpPressed <;>
    simp [applyGravity, jump, h1, h2, h3, h4, hg, hj]

theorem applyGravity_jump_onGround (M : MathLib K) (input : Input K) (p : Player K) (dt : K) :
    (applyGravity (jump input (steer M input p).player) dt).onGround =
      (p.onGround && !input.jumpPressed) := by
  have h1 := steer_onGround M input p
  cases hg : p.onGround <;> cases hj : input.jumpPressed <;>
    simp [applyGravity, jump, h1, hg, hj]

theorem beforeCollide_pos_y (M : MathLib K) (input : Input K) (p : Player K) (dt : K) :
    (beforeCollide M input p dt).pos.y =
      p.pos.y + (applyGravity (jump input (steer M input p).player) dt).vel.y * dt := by
  have h1 := steer_onGround M input p
  have h2 := steer_pos M input p
  have h3 := steer_horizVel_y M input p
  cases hg : p.onGround <;> cases hj : input.jumpPressed <;>
    simp [beforeCollide, integrate, applyGravity, jump, Vec3.add, Vec3.scale, h1, h2, h3, hg, hj]

theorem beforeCollide_vel_y (M : MathLib K) (input : Input K) (p : Player K) (dt : K) :
    (beforeCollide M input p dt).vel.y =
      (applyGravity (jump input (steer M input p).player) dt).vel.y := by
  simp [beforeCollide, integrate]

theorem beforeCollide_onGround (M : MathLib K) (input : Input K) (p : Player K) (dt : K) :
    (beforeCollide M input p dt).onGround = (p.onGround && !input.jumpPressed) := by
  rw [← applyGravity_jump_onGround M input p dt]
  simp [beforeCollide, integrate]

theorem collide_of_le (wish : Vec3 K) (p : Player K) (h : p.pos.y ≤ 0) :
    (collide wish p).pos.y = 0 ∧ (collide wish p).vel.y = 0 ∧
    (collide wish p).onGround = true ∧
    (collide wish p).state =
      if p.onGround = true then p.state
      else if length2 wish > eps then AnimState.Running else AnimState.Idle := by
  cases hg : p.onGround <;> simp [collide, h, hg]

theorem collide_of_gt (wish : Vec3 K) (p : Player K) (h : 0 < p.pos.y) :
    collide wish p = p := by
  simp [collide, not_le.mpr h]

theorem collide_pos_xz (wish : Vec3 K) (p : Player K) :
    (collide wish p).pos.x = p.pos.x ∧ (collide wish p).pos.z = p.pos.z := by
  by_cases h : p.pos.y ≤ 0
  · cases hg : p.onGround <;> simp [collide, h, hg]
  · simp [collide, h]

theorem updatePhysics_pos_xz (M : MathLib K) (input : Input K) (p : Player K) (dt : K) :
    (updatePhysics M input p dt).pos.x = p.pos.x + (steer M input p).horizVel.x * dt ∧
    (updatePhysics M input p dt).pos.z = p.pos.z + (steer M input p).horizVel.z * dt := by
  have h2 := steer_pos M input p
  have h1 := steer_onGround M input p
  obtain ⟨hx, hz⟩ := collide_pos_xz (steer M input p).wish (beforeCollide M input p dt)
  rw [updatePhysics, hx, hz]
  cases hg : p.onGround <;> cases hj : input.jumpPressed <;>
    simp [beforeCollide, integrate, applyGravity, jump, Vec3.add, Vec3.scale, h1, h2, hg, hj]

theorem sqrt_mul_self_abs (M : MathLib K) (hM : M.ExactSqrt) (b : K) :
    M.sqrt (b * b) = |b| := by
  obtain ⟨h0, h1⟩ := hM (b * b) (mul_self_nonneg b)
  have h2 : |M.sqrt (b * b)| = |b| := abs_eq_abs.mpr (mul_self_eq_mul_self_iff.mp h1)
  rwa [abs_of_nonneg h0] at h2

theorem steer_moving (M : MathLib K) (hM : M.ExactSqrt) (input : Input K) (p : Player K)
    (hmove : input.axisRight * input.axisRight + input.axisForward * input.axisForward > eps) :
    length2 (steer M input p).wish = 1 ∧
    (steer M input p).horizVel = (steer M input p).wish.scale p.moveSpeed := by
  have hl : length2 (⟨input.axisRight, 0, -input.axisForward⟩ : Vec3 K)
      = input.axisRight * input.axisRight + input.axisForward * input.axisForward := by
    simp [length2]
  have hgt : length2 (⟨input.axisRight, 0, -input.axisForward⟩ : Vec3 K) > eps := by
    rw [hl]; exact hmove
  have hpos : (0 : K) < input.axisRight * input.axisRight + input.axisForward * input.axisForward :=
    lt_trans eps_pos hmove
  obtain ⟨-, hsq⟩ := hM _ hpos.le
  have hne : M.sqrt (input.axisRight * input.axisRight + input.axisForward * input.axisForward)
      ≠ 0 := by
    intro h0
    rw [h0, mul_zero] at hsq
    exact absurd hsq.symm (ne_of_gt hpos)
  simp only [steer, hgt, if_true]
  refine ⟨?_, trivial⟩
  simp only [normalize, inversesqrt, Vec3.scale, length2, hl]
  simp only [zero_mul, mul_zero, add_zero, neg_mul, neg_mul_neg]
  field_simp
  rw [hsq]

theorem updatePhysics_consts (M : MathLib K) (input : Input K) (p : Player K) (dt : K) :
    (updatePhysics M input p dt).moveSpeed = p.moveSpeed ∧
    (updatePhysics M input p dt).jumpSpeed = p.jumpSpeed ∧
    (updatePhysics M input p dt).gravity = p.gravity := by
  obtain ⟨h1, h2, h3⟩ := steer_consts M input p
  have hb : (beforeCollide M input p dt).moveSpeed = p.moveSpeed ∧
      (beforeCollide M input p dt).jumpSpeed = p.jumpSpeed ∧
      (beforeCollide M input p dt).gravity = p.gravity := by
    cases hg : (steer M input p).player.onGround <;> cases hj : input.jumpPressed <;>
      simp [beforeCollide, integrate, applyGravity, jump, h1, h2, h3, hg, hj]
  by_cases hc : (beforeCollide M input p dt).pos.y ≤ 0
  · cases hg : (beforeCollide M input p dt).onGround <;>
      simp [updatePhysics, collide, hc, hg, hb]
  · rw [updatePhysics, collide_of_gt _ _ (not_le.mp hc)]
    exact hb

theorem runFrames_append (M : MathLib K) (xs ys : List (Input K × K)) :
    ∀ p : Player K, runFrames M p (xs ++ ys) = runFrames M (runFrames M p xs) ys := by
  induction xs with
  | nil => intro p; rfl
  | cons f rest ih =>
    intro p
    obtain ⟨i, dt⟩ := f
    exact ih _

theorem runFrames_consts (M : MathLib K) (frames : List (Input K × K)) :
    ∀ p : Player K, (runFrames M p frames).jumpSpeed = p.jumpSpeed ∧
      (runFrames M p frames).gravity = p.gravity := by
  induction frames with
  | nil => intro p; exact ⟨rfl, rfl⟩
  | cons f rest ih =>
    intro p
    obtain ⟨i, dt⟩ := f
    obtain ⟨h1, h2⟩ := ih (updatePhysics M i p dt)
    obtain ⟨-, h3, h4⟩ := updatePhysics_consts M i p dt
    exact ⟨h1.trans h3, h2.trans h4⟩

/-- The jump scenario, frame by frame: after the jump frame and `n` further
frames the player is either airborne, on the discrete trajectory, or landed
and at rest on the ground; which of the two is decided by the sign of
`2*jumpSpeed - gravity*(t + dt)` at `t = (n+1)*dt`. -/
theorem jumpFrames_run (M : MathLib K) (p : Player K) (dt : K) (hground : p.onGround = true)
    (hy : p.pos.y = 0) (hdt : 0 < dt) (hg : 0 < p.gravity) (n : Nat) :
    ((runFrames M p (jumpFrames dt n)).onGround = false ∧
      p.gravity * ((n + 1 : K) * dt + dt) < 2 * p.jumpSpeed ∧
      (runFrames M p (jumpFrames dt n)).vel.y = p.jumpSpeed - p.gravity * ((n + 1 : K) * dt) ∧
      (runFrames M p (jumpFrames dt n)).pos.y =
        p.jumpSpeed * ((n + 1 : K) * dt)
          - p.gravity * ((n + 1 : K) * dt) * ((n + 1 : K) * dt + dt) / 2) ∨
    ((runFrames M p (jumpFrames dt n)).onGround = true ∧
      ¬ (p.gravity * ((n + 1 : K) * dt + dt) < 2 * p.jumpSpeed) ∧
      (runFrames M p (jumpFrames dt n)).vel.y = 0 ∧
      (runFrames M p (jumpFrames dt n)).pos.y = 0) := by
  induction n with
  | zero =>
    have hrun : runFrames M p (jumpFrames dt 0) = updatePhysics M ⟨0, 0, true⟩ p dt := rfl
    have hby := beforeCollide_pos_y M ⟨0, 0, true⟩ p dt
    have hbv := beforeCollide_vel_y M ⟨0, 0, true⟩ p dt
    have hbg := beforeCollide_onGround M ⟨0, 0, true⟩ p dt
    rw [applyGravity_jump_vel_y] at hby hbv
    simp only [hground, if_true, hy, zero_add, Bool.not_true, Bool.and_false] at hby hbv hbg
    rw [hrun]
    simp only [Nat.cast_zero, zero_add, one_mul]
    by_cases hc : (beforeCollide M ⟨0, 0, true⟩ p dt).pos.y ≤ 0
    · obtain ⟨c1, c2, c3, -⟩ := collide_of_le (steer M ⟨0, 0, true⟩ p).wish _ hc
      right
      refine ⟨c3, ?_, c2, c1⟩
      rw [hby] at hc
      intro hlt
      have : 0 < (p.jumpSpeed - p.gravity * dt) * dt := mul_pos (by linarith) hdt
      linarith
    · have hc2 := not_le.mp hc
      left
      rw [updatePhysics, collide_of_gt _ _ hc2, hbg, hbv, hby]
      rw [hby] at hc2
      have hpos : 0 < p.jumpSpeed - p.gravity * dt := pos_of_mul_pos_left hc2 hdt.le
      exact ⟨rfl, by linarith, rfl, by ring⟩
  | succ n ih =>
    have hrun : runFrames M p (jumpFrames dt (n + 1))
        = updatePhysics M ⟨0, 0, false⟩ (runFrames M p (jumpFrames dt n)) dt := by
      have : jumpFrames dt (n + 1) = jumpFrames dt n ++ [(⟨0, 0, false⟩, dt)] := by
        simp [jumpFrames, List.replicate_succ']
      rw [this, runFrames_append]
      rfl
    obtain ⟨hjs, hgr⟩ := runFrames_consts M (jumpFrames dt n) p
    have hby := beforeCollide_pos_y M ⟨0, 0, false⟩ (runFrames M p (jumpFrames dt n)) dt
    have hbv := beforeCollide_vel_y M ⟨0, 0, false⟩ (runFrames M p (jumpFrames dt n)) dt
    have hbg := beforeCollide_onGround M ⟨0, 0, false⟩ (runFrames M p (jumpFrames dt n)) dt
    rw [applyGravity_jump_vel_y] at hby hbv
    have ht : (0 : K) < (n + 1 : K) * dt := mul_pos (by positivity) hdt
    rw [hrun]
    simp only [Nat.cast_succ]
    rcases ih with ⟨a1, a2, a3, a4⟩ | ⟨g1, g2, g3, g4⟩
    · simp only [a1, a3, a4, hgr, Bool.false_eq_true, if_false, Bool.false_and] at hby hbv hbg
      have hform : p.jumpSpeed * ((n + 1 : K) * dt)
            - p.gravity * ((n + 1 : K) * dt) * ((n + 1 : K) * dt + dt) / 2
            + (p.jumpSpeed - p.gravity * ((n + 1 : K) * dt) - p.gravity * dt) * dt
          = ((n + 1 + 1 : K) * dt)
            * (2 * p.jumpSpeed - p.gravity * ((n + 1 + 1 : K) * dt + dt)) / 2 := by ring
      have ht2 : (0 : K) < (n + 1 + 1 : K) * dt := mul_pos (by positivity) hdt
      by_cases hc : (beforeCollide M ⟨0, 0, false⟩ (runFrames M p (jumpFrames dt n)) dt).pos.y ≤ 0
      · obtain ⟨c1, c2, c3, -⟩ := collide_of_le
          (steer M ⟨0, 0, false⟩ (runFrames M p (jumpFrames dt n))).wish _ hc
        right
        refine ⟨c3, ?_, c2, c1⟩
        rw [hby, hform] at hc
        intro hlt
        have : 0 < ((n + 1 + 1 : K) * dt)
            * (2 * p.jumpSpeed - p.gravity * ((n + 1 + 1 : K) * dt + dt)) :=
          mul_pos ht2 (by linarith)
        linarith
      · have hc2 := not_le.mp hc
        left
        rw [updatePhysics, collide_of_gt _ _ hc2, hbg, hbv, hby]
        rw [hby, hform] at hc2
        have hpos : 0 < 2 * p.jumpSpeed - p.gravity * ((n + 1 + 1 : K) * dt + dt) := by
          have h2 : 0 < ((n + 1 + 1 : K) * dt)
              * (2 * p.jumpSpeed - p.gravity * ((n + 1 + 1 : K) * dt + dt)) := by linarith
          exact pos_of_mul_pos_right h2 ht2.le
        exact ⟨rfl, by linarith, by ring, by ring⟩
    · simp only [g1, g3, g4, if_true, Bool.false_eq_true, if_false, zero_mul, add_zero,
        Bool.not_false, Bool.and_true] at hby hbv hbg
      obtain ⟨c1, c2, c3, -⟩ := collide_of_le
        (steer M ⟨0, 0, false⟩ (runFrames M p (jumpFrames dt n))).wish _ (le_of_eq hby)
      right
      refine ⟨c3, ?_, c2, c1⟩
      intro hlt
      apply g2
      have : 0 < p.gravity * dt := mul_pos hg hdt
      linarith

theorem steerR_player (M : MathLib K) (fl : K → K) (input : Input K) (p : Player K) :
    (steerR M fl input p).player.onGround = p.onGround ∧
    (steerR M fl input p).player.vel = p.vel ∧
    (steerR M fl input p).player.pos = p.pos ∧
    (steerR M fl input p).player.gravity = p.gravity := by
  simp only [steerR]
  split_ifs <;> exact ⟨rfl, rfl, rfl, rfl⟩

theorem collideR_of_le (fl : K → K) (wish : Vec3 K) (p : Player K) (h : p.pos.y ≤ 0) :
    (collideR fl wish p).onGround = true ∧
    (collideR fl wish p).pos.x = p.pos.x ∧ (collideR fl wish p).pos.z = p.pos.z ∧
    (collideR fl wish p).yaw = p.yaw ∧
    (p.onGround = true → (collideR fl wish p).state = p.state) := by
  cases hg : p.onGround <;> simp [collideR, h, hg]

theorem collideR_of_gt (fl : K → K) (wish : Vec3 K) (p : Player K) (h : 0 < p.pos.y) :
    collideR fl wish p = p := by
  simp [collideR, not_le.mpr h]

/-- With the identity as rounding function the rounded step is the exact
step. -/
theorem updatePhysicsR_exact (M : MathLib K) (input : Input K) (p : Player K) (dt : K) :
    updatePhysicsR M (fun x => x) input p dt = updatePhysics M input p dt := rfl

/-- A number within one half of an integer rounds to that integer. -/
theorem roundEven_eq [FloorRing K] (q : K) (m : ℤ) (h : |q - m| < 1 / 2) :
    roundEven q = m := by
  obtain ⟨h1, h2⟩ := abs_lt.mp h
  by_cases hq : (m : K) ≤ q
  · have hf : ⌊q⌋ = m := Int.floor_eq_iff.mpr ⟨hq, by linarith⟩
    have hlt : q - (m : K) < 1 / 2 := h2
    simp only [roundEven, hf, hlt, if_true]
  · have hq2 : q < m := not_le.mp hq
    have hf : ⌊q⌋ = m - 1 := Int.floor_eq_iff.mpr ⟨by push_cast; linarith, by push_cast; linarith⟩
    have hn : ¬ (q - ((m - 1 : ℤ) : K) < 1 / 2) := by push_cast; linarith
    have hp : (1 : K) / 2 < q - ((m - 1 : ℤ) : K) := by push_cast; linarith
    simp only [roundEven, hf, hn, hp, if_false, if_true]
    ring

/-- Evaluation of `fl32`: a number in the binade `[2^(e+23), 2^(e+24))` that
lies within half a unit `2^e` of `m * 2^e` rounds to `m * 2^e`. -/
theorem fl32_eq [FloorRing K] (x : K) (e m : ℤ) (hlo : (2 : K) ^ (e + 23) ≤ |x|)
    (hhi : |x| < (2 : K) ^ (e + 24)) (hm : |x / 2 ^ e - m| < 1 / 2) :
    fl32 x = m * 2 ^ e := by
  have hpos : 0 < |x| := lt_of_lt_of_le (zpow_pos (by norm_num) _) hlo
  have hx : x ≠ 0 := abs_pos.mp hpos
  have hlog : Int.log 2 |x| = e + 23 := by
    apply le_antisymm
    · have : Int.log 2 |x| < e + 24 :=
        (Int.lt_zpow_iff_log_lt (by norm_num) hpos).mp (by exact_mod_cast hhi)
      omega
    · exact (Int.zpow_le_iff_le_log (by norm_num) hpos).mp (by exact_mod_cast hlo)
  have he : Int.log 2 |x| - 23 = e := by omega
  rw [fl32, if_neg hx, he, roundEven_eq _ m hm]

theorem roundEven_bounds [FloorRing K] (q : K) :
    ⌊q⌋ ≤ roundEven q ∧ roundEven q ≤ ⌊q⌋ + 1 := by
  simp only [roundEven]
  split_ifs <;> constructor <;> omega

theorem roundEven_mono [FloorRing K] {q r : K} (h : q ≤ r) : roundEven q ≤ roundEven r := by
  have hf : ⌊q⌋ ≤ ⌊r⌋ := Int.floor_mono h
  rcases lt_or_eq_of_le hf with hlt | heq
  · have h1 := (roundEven_bounds q).2
    have h2 := (roundEven_bounds r).1
    omega
  · simp only [roundEven, heq]
    have hqr : q - (⌊r⌋ : K) ≤ r - (⌊r⌋ : K) := by linarith
    split_ifs <;> first | omega | (exfalso; linarith)

theorem roundEven_intCast [FloorRing K] (m : ℤ) : roundEven (m : K) = m :=
  roundEven_eq (m : K) m (by simp)

theorem fl32_binade [FloorRing K] {x : K} (hx : x ≠ 0) :
    (2 : K) ^ Int.log 2 |x| ≤ |x| ∧ |x| < (2 : K) ^ (Int.log 2 |x| + 1) ∧
    (0 : K) < 2 ^ (Int.log 2 |x| - 23) ∧
    ((8388608 : ℤ) : K) * 2 ^ (Int.log 2 |x| - 23) = 2 ^ Int.log 2 |x| ∧
    ((16777216 : ℤ) : K) * 2 ^ (Int.log 2 |x| - 23) = 2 ^ (Int.log 2 |x| + 1) := by
  have hpos : 0 < |x| := abs_pos.mpr hx
  have h1 : ((2 : ℕ) : K) ^ Int.log 2 |x| ≤ |x| := Int.zpow_log_le_self (by norm_num) hpos
  have h2 : |x| < ((2 : ℕ) : K) ^ (Int.log 2 |x| + 1) :=
    Int.lt_zpow_succ_log_self (by norm_num) |x|
  have e1 : (2 : K) ^ Int.log 2 |x| = 2 ^ (23 : ℤ) * 2 ^ (Int.log 2 |x| - 23) := by
    rw [← zpow_add₀ (two_ne_zero)]; congr 1; ring
  have e2 : (2 : K) ^ (Int.log 2 |x| + 1) = 2 ^ (24 : ℤ) * 2 ^ (Int.log 2 |x| - 23) := by
    rw [← zpow_add₀ (two_ne_zero)]; congr 1; ring
  refine ⟨by exact_mod_cast h1, by exact_mod_cast h2, zpow_pos (by norm_num) _, ?_, ?_⟩
  · rw [e1]; norm_num
  · rw [e2]; norm_num

theorem fl32_bounds_pos [FloorRing K] {x : K} (hx : 0 < x) :
    (2 : K) ^ Int.log 2 |x| ≤ fl32 x ∧ fl32 x ≤ (2 : K) ^ (Int.log 2 |x| + 1) := by
  obtain ⟨b1, b2, hu, e1, e2⟩ := fl32_binade (ne_of_gt hx)
  have bx1 : (2 : K) ^ Int.log 2 |x| ≤ x := b1.trans_eq (abs_of_pos hx)
  have bx2 : x < (2 : K) ^ (Int.log 2 |x| + 1) := lt_of_eq_of_lt (abs_of_pos hx).symm b2
  rw [fl32, if_neg (ne_of_gt hx)]
  have hq1 : ((8388608 : ℤ) : K) ≤ x / 2 ^ (Int.log 2 |x| - 23) := by
    rw [le_div_iff₀ hu, e1]; exact bx1
  have hq2 : x / 2 ^ (Int.log 2 |x| - 23) ≤ ((16777216 : ℤ) : K) := by
    rw [div_le_iff₀ hu, e2]; exact bx2.le
  have r1 := roundEven_mono hq1
  have r2 := roundEven_mono hq2
  rw [roundEven_intCast] at r1 r2
  have c1 : ((8388608 : ℤ) : K) ≤ (roundEven (x / 2 ^ (Int.log 2 |x| - 23)) : K) := by
    exact_mod_cast r1
  have c2 : (roundEven (x / 2 ^ (Int.log 2 |x| - 23)) : K) ≤ ((16777216 : ℤ) : K) := by
    exact_mod_cast r2
  constructor
  · rw [← e1]; exact mul_le_mul_of_nonneg_right c1 hu.le
  · rw [← e2]; exact mul_le_mul_of_nonneg_right c2 hu.le

theorem fl32_bounds_neg [FloorRing K] {x : K} (hx : x < 0) :
    -(2 : K) ^ (Int.log 2 |x| + 1) ≤ fl32 x ∧ fl32 x ≤ -(2 : K) ^ Int.log 2 |x| := by
  obtain ⟨b1, b2, hu, e1, e2⟩ := fl32_binade (ne_of_lt hx)
  have bx1 : (2 : K) ^ Int.log 2 |x| ≤ -x := b1.trans_eq (abs_of_neg hx)
  have bx2 : -x < (2 : K) ^ (Int.log 2 |x| + 1) := lt_of_eq_of_lt (abs_of_neg hx).symm b2
  have n1 : ((-8388608 : ℤ) : K) * 2 ^ (Int.log 2 |x| - 23) = -(2 : K) ^ Int.log 2 |x| := by
    push_cast at e1 ⊢; linarith
  have n2 : ((-16777216 : ℤ) : K) * 2 ^ (Int.log 2 |x| - 23)
      = -(2 : K) ^ (Int.log 2 |x| + 1) := by
    push_cast at e2 ⊢; linarith
  rw [fl32, if_neg (ne_of_lt hx)]
  have hq1 : x / 2 ^ (Int.log 2 |x| - 23) ≤ ((-8388608 : ℤ) : K) := by
    rw [div_le_iff₀ hu, n1]; linarith
  have hq2 : ((-16777216 : ℤ) : K) ≤ x / 2 ^ (Int.log 2 |x| - 23) := by
    rw [le_div_iff₀ hu, n2]; linarith
  have r1 := roundEven_mono hq1
  have r2 := roundEven_mono hq2
  rw [roundEven_intCast] at r1 r2
  have c1 : (roundEven (x / 2 ^ (Int.log 2 |x| - 23)) : K) ≤ ((-8388608 : ℤ) : K) := by
    exact_mod_cast r1
  have c2 : ((-16777216 : ℤ) : K) ≤ (roundEven (x / 2 ^ (Int.log 2 |x| - 23)) : K) := by
    exact_mod_cast r2
  constructor
  · rw [← n2]; exact mul_le_mul_of_nonneg_right c2 hu.le
  · rw [← n1]; exact mul_le_mul_of_nonneg_right c1 hu.le

/-- Rounding to the `float` format is monotone. -/
theorem fl32_monotone [FloorRing K] : Monotone (fl32 : K → K) := by
  intro x y hxy
  have h2 : (1 : K) ≤ 2 := by norm_num
  rcases lt_trichotomy x 0 with hx | hx | hx
  · rcases lt_trichotomy y 0 with hy | hy | hy
    · -- both negative
      have hlog : Int.log 2 |y| ≤ Int.log 2 |x| :=
        Int.log_mono_right (abs_pos.mpr (ne_of_lt hy))
          (by rw [abs_of_neg hx, abs_of_neg hy]; linarith)
      rcases lt_or_eq_of_le hlog with hlt | heq
      · have bx := (fl32_bounds_neg hx).2
        have by1 := (fl32_bounds_neg hy).1
        have : (2 : K) ^ (Int.log 2 |y| + 1) ≤ 2 ^ Int.log 2 |x| :=
          zpow_le_zpow_right₀ h2 (by omega)
        linarith
      · obtain ⟨-, -, hu, -, -⟩ := fl32_binade (ne_of_lt hx)
        rw [fl32, fl32, if_neg (ne_of_lt hx), if_neg (ne_of_lt hy), heq]
        have hq : x / 2 ^ (Int.log 2 |x| - 23) ≤ y / 2 ^ (Int.log 2 |x| - 23) :=
          div_le_div_of_nonneg_right hxy hu.le
        have := roundEven_mono hq
        exact mul_le_mul_of_nonneg_right (by exact_mod_cast this) hu.le
    · subst hy
      have bx := (fl32_bounds_neg hx).2
      have : (0 : K) < 2 ^ Int.log 2 |x| := zpow_pos (by norm_num) _
      simp only [fl32, if_true] at bx ⊢
      rw [if_neg (ne_of_lt hx)] at bx ⊢
      linarith
    · have bx := (fl32_bounds_neg hx).2
      have by1 := (fl32_bounds_pos hy).1
      have p1 : (0 : K) < 2 ^ Int.log 2 |x| := zpow_pos (by norm_num) _
      have p2 : (0 : K) < 2 ^ Int.log 2 |y| := zpow_pos (by norm_num) _
      linarith
  · subst hx
    rcases lt_or_eq_of_le hxy with hy | hy
    · have by1 := (fl32_bounds_pos hy).1
      have p2 : (0 : K) < 2 ^ Int.log 2 |y| := zpow_pos (by norm_num) _
      have : fl32 (0 : K) = 0 := by simp [fl32]
      linarith
    · rw [← hy]
  · have hy : 0 < y := lt_of_lt_of_le hx hxy
    have hlog : Int.log 2 |x| ≤ Int.log 2 |y| :=
      Int.log_mono_right (abs_pos.mpr (ne_of_gt hx))
        (by rw [abs_of_pos hx, abs_of_pos hy]; exact hxy)
    rcases lt_or_eq_of_le hlog with hlt | heq
    · have bx := (fl32_bounds_pos hx).2
      have by1 := (fl32_bounds_pos hy).1
      have : (2 : K) ^ (Int.log 2 |x| + 1) ≤ 2 ^ Int.log 2 |y| :=
        zpow_le_zpow_right₀ h2 (by omega)
      linarith
    · obtain ⟨-, -, hu, -, -⟩ := fl32_binade (ne_of_gt hx)
      rw [fl32, fl32, if_neg (ne_of_gt hx), if_neg (ne_of_gt hy), ← heq]
      have hq : x / 2 ^ (Int.log 2 |x| - 23) ≤ y / 2 ^ (Int.log 2 |x| - 23) :=
        div_le_div_of_nonneg_right hxy hu.le
      have := roundEven_mono hq
      exact mul_le_mul_of_nonneg_right (by exact_mod_cast this) hu.le

/-! Values of `fl32` used in the concrete instances. -/

theorem fl32_zero [FloorRing K] : fl32 (0 : K) = 0 := by simp [fl32]

theorem fl32_one : fl32 (1 : ℝ) = 1 := by
  rw [fl32_eq (1 : ℝ) (-23) 8388608 (by norm_num) (by norm_num) (by norm_num)]; norm_num

theorem fl32_neg_one : fl32 (-1 : ℝ) = -1 := by
  rw [fl32_eq (-1 : ℝ) (-23) (-8388608) (by norm_num) (by norm_num) (by norm_num)]; norm_num

theorem fl32_five : fl32 (5 : ℝ) = 5 := by
  rw [fl32_eq (5 : ℝ) (-21) 10485760 (by norm_num) (by norm_num) (by norm_num)]; norm_num

theorem fl32_ten : fl32 (10 : ℝ) = 10 := by
  rw [fl32_eq (10 : ℝ) (-20) 10485760 (by norm_num) (by norm_num) (by norm_num)]; norm_num

theorem fl32_180 : fl32 (180 : ℝ) = 180 := by
  rw [fl32_eq (180 : ℝ) (-16) 11796480 (by norm_num) (by norm_num) (by norm_num)]; norm_num

/-- The value of the literal `1e-6f`. -/
theorem fl32_eps : fl32 (1 / 1000000 : ℝ) = 8796093 / 8796093022208 := by
  rw [fl32_eq (1 / 1000000 : ℝ) (-43) 8796093 (by norm_num [abs_of_pos])
    (by norm_num [abs_of_pos]) (by norm_num [abs_lt])]; norm_num

theorem fl32_moveSpeed : fl32 (-(7 / 2) : ℝ) = -(7 / 2) := by
  rw [fl32_eq (-(7 / 2) : ℝ) (-22) (-14680064) (by norm_num [abs_of_neg])
    (by norm_num [abs_of_neg]) (by norm_num)]; norm_num

theorem fl32_walk_step : fl32 (-(7 / 128) : ℝ) = -(7 / 128) := by
  rw [fl32_eq (-(7 / 128) : ℝ) (-28) (-14680064) (by norm_num [abs_of_neg])
    (by norm_num [abs_of_neg]) (by norm_num)]; norm_num

theorem fl32_far : fl32 (-2000000 : ℝ) = -2000000 := by
  rw [fl32_eq (-2000000 : ℝ) (-3) (-16000000) (by norm_num) (by norm_num) (by norm_num)]
  norm_num

/-- The sum `-2000000 - 7/128` rounds back to `-2000000`. -/
theorem fl32_far_step : fl32 (-(256000007 / 128) : ℝ) = -2000000 := by
  rw [fl32_eq (-(256000007 / 128) : ℝ) (-3) (-16000000) (by norm_num [abs_of_neg])
    (by norm_num [abs_of_neg]) (by norm_num [abs_lt])]; norm_num

theorem fl32_gravity_step : fl32 (3 / 268435456 : ℝ) = 3 / 268435456 := by
  rw [fl32_eq (3 / 268435456 : ℝ) (-50) 12582912 (by norm_num [abs_of_pos])
    (by norm_num [abs_of_pos]) (by norm_num)]; norm_num

/-- The difference `5 - 12 * 2^-30` rounds back to 5. -/
theorem fl32_five_less : fl32 (1342177277 / 268435456 : ℝ) = 5 := by
  rw [fl32_eq (1342177277 / 268435456 : ℝ) (-21) 10485760 (by norm_num [abs_of_pos])
    (by norm_num [abs_of_pos]) (by norm_num [abs_lt])]; norm_num

theorem fl32_rise : fl32 (5 / 1073741824 : ℝ) = 5 / 1073741824 := by
  rw [fl32_eq (5 / 1073741824 : ℝ) (-51) 10485760 (by norm_num [abs_of_pos])
    (by norm_num [abs_of_pos]) (by norm_num)]; norm_num

/-- The sum `10 + 5 * 2^-30` rounds back to 10. -/
theorem fl32_ten_more : fl32 (10737418245 / 1073741824 : ℝ) = 10 := by
  rw [fl32_eq (10737418245 / 1073741824 : ℝ) (-20) 10485760 (by norm_num [abs_of_pos])
    (by norm_num [abs_of_pos]) (by norm_num [abs_lt])]; norm_num

/-- The rounded step for an airborne player at height 10 with `vel.y = 5`,
gravity 12 and `dt = 2^-30`: still airborne, `vel.y = 5`. -/
theorem updatePhysicsR_fall_eval :
    (updatePhysicsR (⟨Real.sqrt, fun y x => Complex.arg ⟨x, y⟩, fun r => r * (180 / Real.pi)⟩ :
        MathLib ℝ) fl32 ⟨0, 0, false⟩
      { (Player.initial : Player ℝ) with
        pos := ⟨0, 10, 0⟩, vel := ⟨0, 5, 0⟩, onGround := false, state := AnimState.Jumping } (1 / 1073741824)).onGround = false ∧
    (updatePhysicsR (⟨Real.sqrt, fun y x => Complex.arg ⟨x, y⟩, fun r => r * (180 / Real.pi)⟩ :
        MathLib ℝ) fl32 ⟨0, 0, false⟩
      { (Player.initial : Player ℝ) with
        pos := ⟨0, 10, 0⟩, vel := ⟨0, 5, 0⟩, onGround := false, state := AnimState.Jumping } (1 / 1073741824)).vel.y = 5 := by
  constructor <;>
  norm_num [updatePhysicsR, collideR, integrateR, applyGravityR, jump, steerR, normalizeR,
    inversesqrtR, length2R, epsR, Vec3.addR, Vec3.scaleR, Player.initial, Player.default, fl32_zero, fl32_eps, fl32_gravity_step, fl32_five_less, fl32_rise,
    fl32_ten, fl32_ten_more]

/-- The rounded step for the default player at `pos.z = -2000000` walking
forward with `dt = 1/64`: `pos.z` is `-2000000`. -/
theorem updatePhysicsR_walk_eval :
    (updatePhysicsR (⟨Real.sqrt, fun y x => Complex.arg ⟨x, y⟩, fun r => r * (180 / Real.pi)⟩ :
        MathLib ℝ) fl32 ⟨0, 1, false⟩
      { (Player.initial : Player ℝ) with pos := ⟨0, 0, -2000000⟩ } (1 / 64)).pos.z = -2000000 := by
  norm_num [updatePhysicsR, collideR, integrateR, applyGravityR, jump, steerR, normalizeR,
    inversesqrtR, length2R, epsR, Vec3.addR, Vec3.scaleR, Player.initial, Player.default, fl32_zero, fl32_one, fl32_neg_one, fl32_eps, fl32_moveSpeed,
    fl32_walk_step, fl32_far_step]

end Lemmas

/-! ## The claims -/

section Claims

variable {K : Type} [LinearOrderedField K]

/-- C2: whenever the height computed by the integration step, `pos.y` plus the
updated vertical velocity times `dt`, is at most zero, the call ends with
`pos.y = 0`, `vel.y = 0` and onGround true. -/
theorem ground_contact (M : MathLib K) (input : Input K) (p : Player K) (dt : K)
    (hland : p.pos.y + (applyGravity (jump input (steer M input p).player) dt).vel.y * dt ≤ 0) :
    (updatePhysics M input p dt).pos.y = 0 ∧
    (updatePhysics M input p dt).vel.y = 0 ∧
    (updatePhysics M input p dt).onGround = true := by
  have hle : (beforeCollide M input p dt).pos.y ≤ 0 := by
    rw [beforeCollide_pos_y]; exact hland
  obtain ⟨h1, h2, h3, -⟩ := collide_of_le (steer M input p).wish _ hle
  exact ⟨h1, h2, h3⟩

/-- C3: for an airborne player the jump flag has no effect: the call returns
the same player whether the flag is set or not. -/
theorem no_jump_while_airborne (M : MathLib K) (axisRight axisForward : K) (p : Player K)
    (dt : K) (hair : p.onGround = false) :
    updatePhysics M ⟨axisRight, axisForward, true⟩ p dt
      = updatePhysics M ⟨axisRight, axisForward, false⟩ p dt := by
  have h1 : ∀ j, (steer M ⟨axisRight, axisForward, j⟩ p).player.onGround = false := by
    intro j; rw [steer_onGround]; exact hair
  have h2 : steer M ⟨axisRight, axisForward, true⟩ p
      = steer M ⟨axisRight, axisForward, false⟩ p := rfl
  have h3 := h1 false
  simp only [updatePhysics, beforeCollide, jump, h2, h3, Bool.and_false, Bool.false_eq_true,
    if_false]

/-- C9 (amended): for an airborne player with positive gravity and positive
frame time, if the player is still airborne after the call then its vertical
velocity is the rounded value `fl (vel.y - fl (gravity*dt))`; it is not larger
than the previous `vel.y` when the rounding `fl` is monotone and fixes 0 and
the previous `vel.y`; and in exact arithmetic (`fl` the identity) it is the
previous `vel.y` minus `gravity*dt`, which is strictly smaller. -/
theorem airborne_velocity_decreases (M : MathLib K) (fl : K → K) (input : Input K)
    (p : Player K) (dt : K) (hair : p.onGround = false) (hg : 0 < p.gravity) (hdt : 0 < dt)
    (hstill : (updatePhysicsR M fl input p dt).onGround = false) :
    (updatePhysicsR M fl input p dt).vel.y = fl (p.vel.y - fl (p.gravity * dt)) ∧
    (Monotone fl → fl 0 = 0 → fl p.vel.y = p.vel.y →
      (updatePhysicsR M fl input p dt).vel.y ≤ p.vel.y) ∧
    ((∀ x, fl x = x) →
      (updatePhysicsR M fl input p dt).vel.y = p.vel.y - p.gravity * dt ∧
      (updatePhysicsR M fl input p dt).vel.y < p.vel.y) := by
  obtain ⟨h1, h2, -, h4⟩ := steerR_player M fl input p
  have hb : (integrateR fl (steerR M fl input p).horizVel
      (applyGravityR fl (jump input (steerR M fl input p).player) dt) dt).vel.y
        = fl (p.vel.y - fl (p.gravity * dt)) ∧
      (integrateR fl (steerR M fl input p).horizVel
        (applyGravityR fl (jump input (steerR M fl input p).player) dt) dt).onGround = false := by
    simp [integrateR, applyGravityR, jump, h1, h2, h4, hair]
  have hpos : 0 < (integrateR fl (steerR M fl input p).horizVel
      (applyGravityR fl (jump input (steerR M fl input p).player) dt) dt).pos.y := by
    by_contra hle
    have h3 := (collideR_of_le fl (steerR M fl input p).wish _ (not_lt.mp hle)).1
    simp only [updatePhysicsR] at hstill
    rw [h3] at hstill
    exact Bool.noConfusion hstill
  have hq : (updatePhysicsR M fl input p dt).vel.y = fl (p.vel.y - fl (p.gravity * dt)) := by
    simp only [updatePhysicsR]
    rw [collideR_of_gt _ _ _ hpos, hb.1]
  have hgd : 0 < p.gravity * dt := mul_pos hg hdt
  refine ⟨hq, ?_, ?_⟩
  · intro hmono h0 hrep
    rw [hq]
    have hd : 0 ≤ fl (p.gravity * dt) := by
      rw [← h0]; exact hmono hgd.le
    calc fl (p.vel.y - fl (p.gravity * dt)) ≤ fl p.vel.y := hmono (by linarith)
      _ = p.vel.y := hrep
  · intro hexact
    rw [hq, hexact, hexact]
    exact ⟨rfl, by linarith⟩

/-- C5: over a run of `n + 1` consecutive frames that all have state `s`, the
selector calls `PlayAnimation` on the first frame exactly when `s` differs
from the recorded `lastState`, calls it on none of the `n` later frames, and
ends with `lastState = s`. -/
theorem clip_switch_edge_triggered (lastState s : AnimState) (n : Nat) :
    selectClips lastState (List.replicate (n + 1) s) =
      (s, (if s ≠ lastState then some (clipFor s) else none) :: List.replicate n none) := by
  have hsame : ∀ m : Nat, selectClips s (List.replicate m s) = (s, List.replicate m none) := by
    intro m
    induction m with
    | zero => rfl
    | succ m ih => simp [List.replicate_succ, selectClips, selectClip, ih]
  by_cases h : s = lastState
  · subst h
    simp [List.replicate_succ, selectClips, selectClip, hsame]
  · simp [List.replicate_succ, selectClips, selectClip, hsame, h]

/-- C7 (amended): for every input whose squared length exceeds the threshold
`1e-6`, with an exact square root, the wish direction used by the step has unit
length, the horizontal velocity has magnitude `|moveSpeed|` and the horizontal
displacement `(pos.x, pos.z)` applied by the call has length
`|moveSpeed| * |dt|`. -/
theorem wish_unit_speed_exact (M : MathLib K) (hM : M.ExactSqrt) (input : Input K)
    (p : Player K) (dt : K)
    (hmove : input.axisRight * input.axisRight + input.axisForward * input.axisForward > eps) :
    length M (steer M input p).wish = 1 ∧
    length M (steer M input p).horizVel = |p.moveSpeed| ∧
    M.sqrt (((updatePhysics M input p dt).pos.x - p.pos.x)
              * ((updatePhysics M input p dt).pos.x - p.pos.x)
            + ((updatePhysics M input p dt).pos.z - p.pos.z)
              * ((updatePhysics M input p dt).pos.z - p.pos.z))
      = |p.moveSpeed| * |dt| := by
  obtain ⟨hu, hv⟩ := steer_moving M hM input p hmove
  obtain ⟨hx, hz⟩ := updatePhysics_pos_xz M input p dt
  have hy := steer_horizVel_y M input p
  have hone : M.sqrt 1 = 1 := by
    have := sqrt_mul_self_abs M hM 1
    simpa using this
  have hl2 : length2 (steer M input p).horizVel = p.moveSpeed * p.moveSpeed := by
    have : length2 (steer M input p).horizVel
        = length2 (steer M input p).wish * (p.moveSpeed * p.moveSpeed) := by
      rw [hv]; simp only [length2, Vec3.scale]; ring
    rw [this, hu, one_mul]
  refine ⟨by rw [length, hu, hone], by rw [length, hl2, sqrt_mul_self_abs M hM], ?_⟩
  have hd : ((updatePhysics M input p dt).pos.x - p.pos.x)
              * ((updatePhysics M input p dt).pos.x - p.pos.x)
            + ((updatePhysics M input p dt).pos.z - p.pos.z)
              * ((updatePhysics M input p dt).pos.z - p.pos.z)
      = (p.moveSpeed * dt) * (p.moveSpeed * dt) := by
    rw [hx, hz]
    have h3 : length2 (steer M input p).horizVel
        = (steer M input p).horizVel.x * (steer M input p).horizVel.x
          + (steer M input p).horizVel.z * (steer M input p).horizVel.z := by
      simp [length2, hy]
    rw [hl2] at h3
    have : (p.pos.x + (steer M input p).horizVel.x * dt - p.pos.x)
          * (p.pos.x + (steer M input p).horizVel.x * dt - p.pos.x)
        + (p.pos.z + (steer M input p).horizVel.z * dt - p.pos.z)
          * (p.pos.z + (steer M input p).horizVel.z * dt - p.pos.z)
        = ((steer M input p).horizVel.x * (steer M input p).horizVel.x
          + (steer M input p).horizVel.z * (steer M input p).horizVel.z) * (dt * dt) := by ring
    rw [this, ← h3]; ring
  rw [hd, sqrt_mul_self_abs M hM, abs_mul]

/-- C8 (amended): for a grounded player with positive move speed and positive
frame time, the input `axisForward = 1`, `axisRight = 0` without jump gives
state Running, facing angle 180 (the library returns `sqrt 1 = 1`,
`atan2 0 1 = 0` and `degrees 0 = 0`, and the adjustment adds 180), `pos.x`
unchanged and `pos.z` equal to the rounded value
`fl (pos.z + fl (-moveSpeed*dt))`, which is not larger than before; this for
every monotone rounding `fl` that fixes 0, 1, -1 and 180, rounds `1/1000000`
below 1 and fixes the player's `pos.x`, `pos.z` and `-moveSpeed`.  In exact
arithmetic (`fl` the identity) `pos.z` is decreased by `moveSpeed*dt`, hence
strictly smaller. -/
theorem forward_walk (M : MathLib K) (fl : K → K) (hsqrt : M.sqrt 1 = 1)
    (hatan : M.atan2 0 1 = 0) (hdeg : M.degrees 0 = 0) (hmono : Monotone fl)
    (h0 : fl 0 = 0) (h1 : fl 1 = 1) (hneg1 : fl (-1) = -1) (h180 : fl 180 = 180)
    (heps : fl (1 / 1000000) < 1) (p : Player K) (dt : K)
    (hx : fl p.pos.x = p.pos.x) (hz : fl p.pos.z = p.pos.z)
    (hm : fl (-p.moveSpeed) = -p.moveSpeed)
    (hground : p.onGround = true) (hspeed : 0 < p.moveSpeed) (hdt : 0 < dt) :
    (updatePhysicsR M fl ⟨0, 1, false⟩ p dt).state = AnimState.Running ∧
    (updatePhysicsR M fl ⟨0, 1, false⟩ p dt).yaw = 180 ∧
    (updatePhysicsR M fl ⟨0, 1, false⟩ p dt).pos.x = p.pos.x ∧
    (updatePhysicsR M fl ⟨0, 1, false⟩ p dt).pos.z = fl (p.pos.z + fl (-p.moveSpeed * dt)) ∧
    (updatePhysicsR M fl ⟨0, 1, false⟩ p dt).pos.z ≤ p.pos.z ∧
    ((∀ x, fl x = x) →
      (updatePhysicsR M fl ⟨0, 1, false⟩ p dt).pos.z = p.pos.z - p.moveSpeed * dt ∧
      (updatePhysicsR M fl ⟨0, 1, false⟩ p dt).pos.z < p.pos.z) := by
  have hs : steerR M fl ⟨0, 1, false⟩ p =
      { wish := ⟨0, 0, -1⟩, horizVel := ⟨0, 0, -p.moveSpeed⟩,
        player := { p with yaw := 180, state := AnimState.Running } } := by
    have heps2 : fl 1000000⁻¹ < 1 := by simpa using heps
    simp [steerR, length2R, epsR, normalizeR, inversesqrtR, Vec3.scaleR, snapYawR, h0, h1, hneg1,
      h180, heps2, hsqrt, hatan, hdeg, hm, hground]
  have hb : integrateR fl (⟨0, 0, -p.moveSpeed⟩ : Vec3 K)
      (applyGravityR fl (jump ⟨0, 1, false⟩
        ({ p with yaw := 180, state := AnimState.Running } : Player K)) dt) dt
      = { p with yaw := 180, state := AnimState.Running,
                 pos := ⟨p.pos.x, fl (fl (p.pos.y + 0) + fl (p.vel.y * dt)),
                         fl (p.pos.z + fl (-p.moveSpeed * dt))⟩ } := by
    simp [integrateR, applyGravityR, jump, Vec3.addR, Vec3.scaleR, h0, hx, hground]
  have hq : (updatePhysicsR M fl ⟨0, 1, false⟩ p dt).state = AnimState.Running ∧
      (updatePhysicsR M fl ⟨0, 1, false⟩ p dt).yaw = 180 ∧
      (updatePhysicsR M fl ⟨0, 1, false⟩ p dt).pos.x = p.pos.x ∧
      (updatePhysicsR M fl ⟨0, 1, false⟩ p dt).pos.z
        = fl (p.pos.z + fl (-p.moveSpeed * dt)) := by
    simp only [updatePhysicsR, hs, hb]
    by_cases hc : fl (fl (p.pos.y + 0) + fl (p.vel.y * dt)) ≤ 0
    · obtain ⟨-, c2, c3, c4, c5⟩ := collideR_of_le fl (⟨0, 0, -1⟩ : Vec3 K)
        ({ p with yaw := 180, state := AnimState.Running,
                  pos := ⟨p.pos.x, fl (fl (p.pos.y + 0) + fl (p.vel.y * dt)),
                          fl (p.pos.z + fl (-p.moveSpeed * dt))⟩ } : Player K) hc
      exact ⟨c5 hground, c4, c2, c3⟩
    · rw [collideR_of_gt _ _ _ (not_le.mp hc)]
      exact ⟨rfl, rfl, rfl, rfl⟩
  obtain ⟨q1, q2, q3, q4⟩ := hq
  have hmd : -p.moveSpeed * dt < 0 := by
    have : 0 < p.moveSpeed * dt := mul_pos hspeed hdt
    linarith
  refine ⟨q1, q2, q3, q4, ?_, ?_⟩
  · rw [q4]
    have hd : fl (-p.moveSpeed * dt) ≤ 0 := by
      rw [← h0]; exact hmono hmd.le
    calc fl (p.pos.z + fl (-p.moveSpeed * dt)) ≤ fl p.pos.z := hmono (by linarith)
      _ = p.pos.z := hz
  · intro hexact
    rw [q4, hexact, hexact]
    exact ⟨by ring, by linarith⟩

/-- C10 (amended): starting grounded with `pos.y = 0`, with positive gravity
and frame time `dt > 0`, consider the state after the jump frame and `n`
further frames without input, at `t = (n+1)*dt`.  The player is airborne
exactly when `gravity*(t + dt) < 2*jumpSpeed`; while airborne
`vel.y = jumpSpeed - gravity*t`,
`pos.y = jumpSpeed*t - gravity*t*(t + dt)/2` and
`pos.y < jumpSpeed^2 / (2*gravity)`; once landed `vel.y = 0` and `pos.y = 0`;
and in every case `pos.y ≤ (jumpSpeed - gravity*dt/2)^2 / (2*gravity)`. -/
theorem jump_trajectory_discrete (M : MathLib K) (p : Player K) (dt : K) (n : Nat)
    (hground : p.onGround = true) (hy : p.pos.y = 0) (hdt : 0 < dt) (hg : 0 < p.gravity) :
    ((runFrames M p (jumpFrames dt n)).onGround = false ↔
      p.gravity * ((n + 1 : K) * dt + dt) < 2 * p.jumpSpeed) ∧
    ((runFrames M p (jumpFrames dt n)).onGround = false →
      (runFrames M p (jumpFrames dt n)).vel.y = p.jumpSpeed - p.gravity * ((n + 1 : K) * dt) ∧
      (runFrames M p (jumpFrames dt n)).pos.y =
        p.jumpSpeed * ((n + 1 : K) * dt)
          - p.gravity * ((n + 1 : K) * dt) * ((n + 1 : K) * dt + dt) / 2 ∧
      (runFrames M p (jumpFrames dt n)).pos.y < p.jumpSpeed ^ 2 / (2 * p.gravity)) ∧
    ((runFrames M p (jumpFrames dt n)).onGround = true →
      (runFrames M p (jumpFrames dt n)).vel.y = 0 ∧
      (runFrames M p (jumpFrames dt n)).pos.y = 0) ∧
    (runFrames M p (jumpFrames dt n)).pos.y
      ≤ (p.jumpSpeed - p.gravity * dt / 2) ^ 2 / (2 * p.gravity) := by
  have h2g : 0 < 2 * p.gravity := by linarith
  have ht : (0 : K) < (n + 1 : K) * dt := mul_pos (by positivity) hdt
  rcases jumpFrames_run M p dt hground hy hdt hg n with ⟨a1, a2, a3, a4⟩ | ⟨g1, g2, g3, g4⟩
  · refine ⟨⟨fun _ => a2, fun _ => a1⟩, fun _ => ⟨a3, a4, ?_⟩, ?_, ?_⟩
    · rw [a4, lt_div_iff₀ h2g]
      nlinarith [sq_nonneg (p.jumpSpeed - p.gravity * ((n + 1 : K) * dt)),
        mul_pos (mul_pos (mul_pos hg hg) ht) hdt]
    · intro h
      rw [a1] at h
      exact Bool.noConfusion h
    · rw [a4, le_div_iff₀ h2g]
      nlinarith [sq_nonneg (p.jumpSpeed - p.gravity * dt / 2 - p.gravity * ((n + 1 : K) * dt))]
  · refine ⟨⟨?_, fun h => absurd h g2⟩, ?_, fun _ => ⟨g3, g4⟩, ?_⟩
    · intro h
      rw [g1] at h
      exact Bool.noConfusion h
    · intro h
      rw [g1] at h
      exact Bool.noConfusion h
    · rw [g4]
      positivity

/-! ## Concrete instances

The instances below run the step over the real numbers with the mathematical
`sqrt`, `atan2` and radians-to-degrees conversion as the library, unless the
instance names another library. -/

/-- C2 (instance): a player falling from height `1/100` with `dt = 1/4` reaches
the ground. -/
theorem ground_contact_witness :
    (({ (Player.initial : Player ℝ) with
        pos := ⟨0, 1 / 100, 0⟩, onGround := false, state := AnimState.Jumping } : Player ℝ).pos.y
      + (applyGravity (jump ⟨0, 0, false⟩ (steer (⟨Real.sqrt, fun y x => Complex.arg ⟨x, y⟩, fun r => r * (180 / Real.pi)⟩ :
        MathLib ℝ) ⟨0, 0, false⟩
          { (Player.initial : Player ℝ) with
        pos := ⟨0, 1 / 100, 0⟩, onGround := false, state := AnimState.Jumping }).player) (1 / 4)).vel.y * (1 / 4) ≤ 0) ∧
    (updatePhysics (⟨Real.sqrt, fun y x => Complex.arg ⟨x, y⟩, fun r => r * (180 / Real.pi)⟩ :
        MathLib ℝ) ⟨0, 0, false⟩
      { (Player.initial : Player ℝ) with
        pos := ⟨0, 1 / 100, 0⟩, onGround := false, state := AnimState.Jumping } (1 / 4)).pos.y = 0 ∧
    (updatePhysics (⟨Real.sqrt, fun y x => Complex.arg ⟨x, y⟩, fun r => r * (180 / Real.pi)⟩ :
        MathLib ℝ) ⟨0, 0, false⟩
      { (Player.initial : Player ℝ) with
        pos := ⟨0, 1 / 100, 0⟩, onGround := false, state := AnimState.Jumping } (1 / 4)).vel.y = 0 ∧
    (updatePhysics (⟨Real.sqrt, fun y x => Complex.arg ⟨x, y⟩, fun r => r * (180 / Real.pi)⟩ :
        MathLib ℝ) ⟨0, 0, false⟩
      { (Player.initial : Player ℝ) with
        pos := ⟨0, 1 / 100, 0⟩, onGround := false, state := AnimState.Jumping } (1 / 4)).onGround = true :=
  ⟨by norm_num [updatePhysics, beforeCollide, collide, integrate, applyGravity, jump, steer,
      length2, eps, Vec3.add, Vec3.scale, Player.initial, Player.default],
    ground_contact _ ⟨0, 0, false⟩ _ (1 / 4)
      (by norm_num [updatePhysics, beforeCollide, collide, integrate, applyGravity, jump, steer,
      length2, eps, Vec3.add, Vec3.scale, Player.initial, Player.default])⟩

/-- C3 (instance): an airborne player at height 10, `dt = 1/64`. -/
theorem no_jump_while_airborne_witness :
    ({ (Player.initial : Player ℝ) with
        pos := ⟨0, 10, 0⟩, onGround := false, state := AnimState.Jumping } : Player ℝ).onGround = false ∧
    updatePhysics (⟨Real.sqrt, fun y x => Complex.arg ⟨x, y⟩, fun r => r * (180 / Real.pi)⟩ :
        MathLib ℝ) ⟨0, 1, true⟩
      { (Player.initial : Player ℝ) with
        pos := ⟨0, 10, 0⟩, onGround := false, state := AnimState.Jumping } (1 / 64)
    = updatePhysics (⟨Real.sqrt, fun y x => Complex.arg ⟨x, y⟩, fun r => r * (180 / Real.pi)⟩ :
        MathLib ℝ) ⟨0, 1, false⟩
      { (Player.initial : Player ℝ) with
        pos := ⟨0, 10, 0⟩, onGround := false, state := AnimState.Jumping } (1 / 64) :=
  ⟨rfl, no_jump_while_airborne _ 0 1 _ (1 / 64) rfl⟩

/-- C9 (counterexample): in `float` arithmetic an airborne player at height 10
with `vel.y = 5` and gravity 12 goes through a frame of `dt = 2^-30`: the
product `12 * 2^-30` is below half a unit in the last place of 5, so
`5 - 12 * 2^-30` rounds back to 5.  The player is still airborne and `vel.y` is
5 as before, not strictly smaller. -/
theorem airborne_velocity_counterexample :
    ({ (Player.initial : Player ℝ) with
        pos := ⟨0, 10, 0⟩, vel := ⟨0, 5, 0⟩, onGround := false, state := AnimState.Jumping } : Player ℝ).onGround = false ∧
    (0 : ℝ) < ({ (Player.initial : Player ℝ) with
        pos := ⟨0, 10, 0⟩, vel := ⟨0, 5, 0⟩, onGround := false, state := AnimState.Jumping } : Player ℝ).gravity ∧
    (0 : ℝ) < 1 / 1073741824 ∧
    (updatePhysicsR (⟨Real.sqrt, fun y x => Complex.arg ⟨x, y⟩, fun r => r * (180 / Real.pi)⟩ :
        MathLib ℝ) fl32 ⟨0, 0, false⟩
      { (Player.initial : Player ℝ) with
        pos := ⟨0, 10, 0⟩, vel := ⟨0, 5, 0⟩, onGround := false, state := AnimState.Jumping } (1 / 1073741824)).onGround = false ∧
    (updatePhysicsR (⟨Real.sqrt, fun y x => Complex.arg ⟨x, y⟩, fun r => r * (180 / Real.pi)⟩ :
        MathLib ℝ) fl32 ⟨0, 0, false⟩
      { (Player.initial : Player ℝ) with
        pos := ⟨0, 10, 0⟩, vel := ⟨0, 5, 0⟩, onGround := false, state := AnimState.Jumping } (1 / 1073741824)).vel.y = 5 ∧
    ¬ ((updatePhysicsR (⟨Real.sqrt, fun y x => Complex.arg ⟨x, y⟩, fun r => r * (180 / Real.pi)⟩ :
        MathLib ℝ) fl32 ⟨0, 0, false⟩
      { (Player.initial : Player ℝ) with
        pos := ⟨0, 10, 0⟩, vel := ⟨0, 5, 0⟩, onGround := false, state := AnimState.Jumping } (1 / 1073741824)).vel.y
        < ({ (Player.initial : Player ℝ) with
        pos := ⟨0, 10, 0⟩, vel := ⟨0, 5, 0⟩, onGround := false, state := AnimState.Jumping } : Player ℝ).vel.y) := by
  obtain ⟨hg, hv⟩ := updatePhysicsR_fall_eval
  refine ⟨rfl, by norm_num [Player.initial, Player.default], by norm_num, hg, hv, ?_⟩
  rw [hv]
  norm_num

/-- C9 (instance): first with `float` rounding, for the airborne player at
height 10 with `vel.y = 5` and `dt = 2^-30`, where `fl32` is monotone and fixes
0 and 5; then in exact arithmetic (the identity as rounding), for an airborne
player at height 10 and rest with `dt = 1/64`. -/
theorem airborne_velocity_decreases_witness :
    (({ (Player.initial : Player ℝ) with
        pos := ⟨0, 10, 0⟩, vel := ⟨0, 5, 0⟩, onGround := false, state := AnimState.Jumping } : Player ℝ).onGround = false ∧
      (0 : ℝ) < ({ (Player.initial : Player ℝ) with
        pos := ⟨0, 10, 0⟩, vel := ⟨0, 5, 0⟩, onGround := false, state := AnimState.Jumping } : Player ℝ).gravity ∧
      (0 : ℝ) < 1 / 1073741824 ∧
      (updatePhysicsR (⟨Real.sqrt, fun y x => Complex.arg ⟨x, y⟩, fun r => r * (180 / Real.pi)⟩ :
        MathLib ℝ) fl32 ⟨0, 0, false⟩
      { (Player.initial : Player ℝ) with
        pos := ⟨0, 10, 0⟩, vel := ⟨0, 5, 0⟩, onGround := false, state := AnimState.Jumping } (1 / 1073741824)).onGround = false ∧
      Monotone (fl32 : ℝ → ℝ) ∧ fl32 (0 : ℝ) = 0 ∧
      fl32 ({ (Player.initial : Player ℝ) with
        pos := ⟨0, 10, 0⟩, vel := ⟨0, 5, 0⟩, onGround := false, state := AnimState.Jumping } : Player ℝ).vel.y
        = ({ (Player.initial : Player ℝ) with
        pos := ⟨0, 10, 0⟩, vel := ⟨0, 5, 0⟩, onGround := false, state := AnimState.Jumping } : Player ℝ).vel.y ∧
      (updatePhysicsR (⟨Real.sqrt, fun y x => Complex.arg ⟨x, y⟩, fun r => r * (180 / Real.pi)⟩ :
        MathLib ℝ) fl32 ⟨0, 0, false⟩
      { (Player.initial : Player ℝ) with
        pos := ⟨0, 10, 0⟩, vel := ⟨0, 5, 0⟩, onGround := false, state := AnimState.Jumping } (1 / 1073741824)).vel.y
        = fl32 (({ (Player.initial : Player ℝ) with
        pos := ⟨0, 10, 0⟩, vel := ⟨0, 5, 0⟩, onGround := false, state := AnimState.Jumping } : Player ℝ).vel.y
          - fl32 (({ (Player.initial : Player ℝ) with
        pos := ⟨0, 10, 0⟩, vel := ⟨0, 5, 0⟩, onGround := false, state := AnimState.Jumping } : Player ℝ).gravity
            * (1 / 1073741824))) ∧
      (updatePhysicsR (⟨Real.sqrt, fun y x => Complex.arg ⟨x, y⟩, fun r => r * (180 / Real.pi)⟩ :
        MathLib ℝ) fl32 ⟨0, 0, false⟩
      { (Player.initial : Player ℝ) with
        pos := ⟨0, 10, 0⟩, vel := ⟨0, 5, 0⟩, onGround := false, state := AnimState.Jumping } (1 / 1073741824)).vel.y
        ≤ ({ (Player.initial : Player ℝ) with
        pos := ⟨0, 10, 0⟩, vel := ⟨0, 5, 0⟩, onGround := false, state := AnimState.Jumping } : Player ℝ).vel.y) ∧
    (({ (Player.initial : Player ℝ) with
        pos := ⟨0, 10, 0⟩, onGround := false, state := AnimState.Jumping } : Player ℝ).onGround = false ∧
      (0 : ℝ) < ({ (Player.initial : Player ℝ) with
        pos := ⟨0, 10, 0⟩, onGround := false, state := AnimState.Jumping } : Player ℝ).gravity ∧
      (0 : ℝ) < 1 / 64 ∧
      (updatePhysicsR (⟨Real.sqrt, fun y x => Complex.arg ⟨x, y⟩, fun r => r * (180 / Real.pi)⟩ :
        MathLib ℝ) (fun x => x) ⟨0, 0, false⟩
      { (Player.initial : Player ℝ) with
        pos := ⟨0, 10, 0⟩, onGround := false, state := AnimState.Jumping } (1 / 64)).onGround = false ∧
      (updatePhysicsR (⟨Real.sqrt, fun y x => Complex.arg ⟨x, y⟩, fun r => r * (180 / Real.pi)⟩ :
        MathLib ℝ) (fun x => x) ⟨0, 0, false⟩
      { (Player.initial : Player ℝ) with
        pos := ⟨0, 10, 0⟩, onGround := false, state := AnimState.Jumping } (1 / 64)).vel.y
        = ({ (Player.initial : Player ℝ) with
        pos := ⟨0, 10, 0⟩, onGround := false, state := AnimState.Jumping } : Player ℝ).vel.y
          - ({ (Player.initial : Player ℝ) with
        pos := ⟨0, 10, 0⟩, onGround := false, state := AnimState.Jumping } : Player ℝ).gravity * (1 / 64) ∧
      (updatePhysicsR (⟨Real.sqrt, fun y x => Complex.arg ⟨x, y⟩, fun r => r * (180 / Real.pi)⟩ :
        MathLib ℝ) (fun x => x) ⟨0, 0, false⟩
      { (Player.initial : Player ℝ) with
        pos := ⟨0, 10, 0⟩, onGround := false, state := AnimState.Jumping } (1 / 64)).vel.y
        < ({ (Player.initial : Player ℝ) with
        pos := ⟨0, 10, 0⟩, onGround := false, state := AnimState.Jumping } : Player ℝ).vel.y) := by
  have hgrav : (0 : ℝ) < (Player.initial : Player ℝ).gravity := by
    norm_num [Player.initial, Player.default]
  have hstillR := updatePhysicsR_fall_eval.1
  have hR := airborne_velocity_decreases (⟨Real.sqrt, fun y x => Complex.arg ⟨x, y⟩, fun r => r * (180 / Real.pi)⟩ :
        MathLib ℝ) fl32 ⟨0, 0, false⟩
      { (Player.initial : Player ℝ) with
        pos := ⟨0, 10, 0⟩, vel := ⟨0, 5, 0⟩, onGround := false, state := AnimState.Jumping } (1 / 1073741824) rfl hgrav (by norm_num) hstillR
  have hstill : (updatePhysicsR (⟨Real.sqrt, fun y x => Complex.arg ⟨x, y⟩, fun r => r * (180 / Real.pi)⟩ :
        MathLib ℝ) (fun x => x) ⟨0, 0, false⟩
      { (Player.initial : Player ℝ) with
        pos := ⟨0, 10, 0⟩, onGround := false, state := AnimState.Jumping } (1 / 64)).onGround = false := by
    norm_num [updatePhysicsR, collideR, integrateR, applyGravityR, jump, steerR, normalizeR,
    inversesqrtR, length2R, epsR, Vec3.addR, Vec3.scaleR, Player.initial, Player.default]
  have h := airborne_velocity_decreases (⟨Real.sqrt, fun y x => Complex.arg ⟨x, y⟩, fun r => r * (180 / Real.pi)⟩ :
        MathLib ℝ) (fun x => x) ⟨0, 0, false⟩
      { (Player.initial : Player ℝ) with
        pos := ⟨0, 10, 0⟩, onGround := false, state := AnimState.Jumping } (1 / 64) rfl hgrav (by norm_num) hstill
  exact ⟨⟨rfl, hgrav, by norm_num, hstillR, fl32_monotone, fl32_zero, fl32_five, hR.1,
      hR.2.1 fl32_monotone fl32_zero fl32_five⟩,
    ⟨rfl, hgrav, by norm_num, hstill, (h.2.2 (fun _ => rfl)).1, (h.2.2 (fun _ => rfl)).2⟩⟩

/-- C7 (counterexample): with the non-zero axes `(1/1024, 0)`, whose squared
length is below the threshold, the default player's wish direction has squared
length `1/1048576` (so not unit length), the horizontal velocity is zero and
the displacement over `dt = 1` has length 0, not `moveSpeed = 7/2`; and with
`moveSpeed = -1`, axes `(1, 0)`, `dt = 1` the displacement has length 1, not
`moveSpeed * |dt| = -1`. -/
theorem wish_unit_speed_counterexample :
    ((1 / 1024 : ℝ), (0 : ℝ)) ≠ (0, 0) ∧
    length2 (steer (⟨Real.sqrt, fun y x => Complex.arg ⟨x, y⟩, fun r => r * (180 / Real.pi)⟩ :
        MathLib ℝ) ⟨1 / 1024, 0, false⟩ Player.initial).wish = 1 / 1048576 ∧
    length (⟨Real.sqrt, fun y x => Complex.arg ⟨x, y⟩, fun r => r * (180 / Real.pi)⟩ :
        MathLib ℝ) (steer (⟨Real.sqrt, fun y x => Complex.arg ⟨x, y⟩, fun r => r * (180 / Real.pi)⟩ :
        MathLib ℝ) ⟨1 / 1024, 0, false⟩ Player.initial).wish ≠ 1 ∧
    (steer (⟨Real.sqrt, fun y x => Complex.arg ⟨x, y⟩, fun r => r * (180 / Real.pi)⟩ :
        MathLib ℝ) ⟨1 / 1024, 0, false⟩ Player.initial).horizVel = ⟨0, 0, 0⟩ ∧
    Real.sqrt (((updatePhysics (⟨Real.sqrt, fun y x => Complex.arg ⟨x, y⟩, fun r => r * (180 / Real.pi)⟩ :
        MathLib ℝ) ⟨1 / 1024, 0, false⟩
          Player.initial 1).pos.x
          - (Player.initial : Player ℝ).pos.x)
        * ((updatePhysics (⟨Real.sqrt, fun y x => Complex.arg ⟨x, y⟩, fun r => r * (180 / Real.pi)⟩ :
        MathLib ℝ) ⟨1 / 1024, 0, false⟩
          Player.initial 1).pos.x
          - (Player.initial : Player ℝ).pos.x)
      + ((updatePhysics (⟨Real.sqrt, fun y x => Complex.arg ⟨x, y⟩, fun r => r * (180 / Real.pi)⟩ :
        MathLib ℝ) ⟨1 / 1024, 0, false⟩
          Player.initial 1).pos.z
          - (Player.initial : Player ℝ).pos.z)
        * ((updatePhysics (⟨Real.sqrt, fun y x => Complex.arg ⟨x, y⟩, fun r => r * (180 / Real.pi)⟩ :
        MathLib ℝ) ⟨1 / 1024, 0, false⟩
          Player.initial 1).pos.z
          - (Player.initial : Player ℝ).pos.z)) = 0 ∧
    Real.sqrt (((updatePhysics (⟨Real.sqrt, fun y x => Complex.arg ⟨x, y⟩, fun r => r * (180 / Real.pi)⟩ :
        MathLib ℝ) ⟨1 / 1024, 0, false⟩
          Player.initial 1).pos.x
          - (Player.initial : Player ℝ).pos.x)
        * ((updatePhysics (⟨Real.sqrt, fun y x => Complex.arg ⟨x, y⟩, fun r => r * (180 / Real.pi)⟩ :
        MathLib ℝ) ⟨1 / 1024, 0, false⟩
          Player.initial 1).pos.x
          - (Player.initial : Player ℝ).pos.x)
      + ((updatePhysics (⟨Real.sqrt, fun y x => Complex.arg ⟨x, y⟩, fun r => r * (180 / Real.pi)⟩ :
        MathLib ℝ) ⟨1 / 1024, 0, false⟩
          Player.initial 1).pos.z
          - (Player.initial : Player ℝ).pos.z)
        * ((updatePhysics (⟨Real.sqrt, fun y x => Complex.arg ⟨x, y⟩, fun r => r * (180 / Real.pi)⟩ :
        MathLib ℝ) ⟨1 / 1024, 0, false⟩
          Player.initial 1).pos.z
          - (Player.initial : Player ℝ).pos.z))
      ≠ (Player.initial : Player ℝ).moveSpeed * |(1 : ℝ)| ∧
    Real.sqrt (((updatePhysics (⟨Real.sqrt, fun y x => Complex.arg ⟨x, y⟩, fun r => r * (180 / Real.pi)⟩ :
        MathLib ℝ) ⟨1, 0, false⟩
          { (Player.initial : Player ℝ) with moveSpeed := -1 } 1).pos.x
          - ({ (Player.initial : Player ℝ) with moveSpeed := -1 } : Player ℝ).pos.x)
        * ((updatePhysics (⟨Real.sqrt, fun y x => Complex.arg ⟨x, y⟩, fun r => r * (180 / Real.pi)⟩ :
        MathLib ℝ) ⟨1, 0, false⟩
          { (Player.initial : Player ℝ) with moveSpeed := -1 } 1).pos.x
          - ({ (Player.initial : Player ℝ) with moveSpeed := -1 } : Player ℝ).pos.x)
      + ((updatePhysics (⟨Real.sqrt, fun y x => Complex.arg ⟨x, y⟩, fun r => r * (180 / Real.pi)⟩ :
        MathLib ℝ) ⟨1, 0, false⟩
          { (Player.initial : Player ℝ) with moveSpeed := -1 } 1).pos.z
          - ({ (Player.initial : Player ℝ) with moveSpeed := -1 } : Player ℝ).pos.z)
        * ((updatePhysics (⟨Real.sqrt, fun y x => Complex.arg ⟨x, y⟩, fun r => r * (180 / Real.pi)⟩ :
        MathLib ℝ) ⟨1, 0, false⟩
          { (Player.initial : Player ℝ) with moveSpeed := -1 } 1).pos.z
          - ({ (Player.initial : Player ℝ) with moveSpeed := -1 } : Player ℝ).pos.z)) = 1 ∧
    Real.sqrt (((updatePhysics (⟨Real.sqrt, fun y x => Complex.arg ⟨x, y⟩, fun r => r * (180 / Real.pi)⟩ :
        MathLib ℝ) ⟨1, 0, false⟩
          { (Player.initial : Player ℝ) with moveSpeed := -1 } 1).pos.x
          - ({ (Player.initial : Player ℝ) with moveSpeed := -1 } : Player ℝ).pos.x)
        * ((updatePhysics (⟨Real.sqrt, fun y x => Complex.arg ⟨x, y⟩, fun r => r * (180 / Real.pi)⟩ :
        MathLib ℝ) ⟨1, 0, false⟩
          { (Player.initial : Player ℝ) with moveSpeed := -1 } 1).pos.x
          - ({ (Player.initial : Player ℝ) with moveSpeed := -1 } : Player ℝ).pos.x)
      + ((updatePhysics (⟨Real.sqrt, fun y x => Complex.arg ⟨x, y⟩, fun r => r * (180 / Real.pi)⟩ :
        MathLib ℝ) ⟨1, 0, false⟩
          { (Player.initial : Player ℝ) with moveSpeed := -1 } 1).pos.z
          - ({ (Player.initial : Player ℝ) with moveSpeed := -1 } : Player ℝ).pos.z)
        * ((updatePhysics (⟨Real.sqrt, fun y x => Complex.arg ⟨x, y⟩, fun r => r * (180 / Real.pi)⟩ :
        MathLib ℝ) ⟨1, 0, false⟩
          { (Player.initial : Player ℝ) with moveSpeed := -1 } 1).pos.z
          - ({ (Player.initial : Player ℝ) with moveSpeed := -1 } : Player ℝ).pos.z))
      ≠ ({ (Player.initial : Player ℝ) with moveSpeed := -1 } : Player ℝ).moveSpeed * |(1 : ℝ)| := by
  have hl : length2 (steer (⟨Real.sqrt, fun y x => Complex.arg ⟨x, y⟩, fun r => r * (180 / Real.pi)⟩ :
        MathLib ℝ) ⟨1 / 1024, 0, false⟩ (Player.initial : Player ℝ)).wish
      = 1 / 1048576 := by
    norm_num [steer, length2, eps]
  have hA : Real.sqrt (((updatePhysics (⟨Real.sqrt, fun y x => Complex.arg ⟨x, y⟩, fun r => r * (180 / Real.pi)⟩ :
        MathLib ℝ) ⟨1 / 1024, 0, false⟩
          Player.initial 1).pos.x
          - (Player.initial : Player ℝ).pos.x)
        * ((updatePhysics (⟨Real.sqrt, fun y x => Complex.arg ⟨x, y⟩, fun r => r * (180 / Real.pi)⟩ :
        MathLib ℝ) ⟨1 / 1024, 0, false⟩
          Player.initial 1).pos.x
          - (Player.initial : Player ℝ).pos.x)
      + ((updatePhysics (⟨Real.sqrt, fun y x => Complex.arg ⟨x, y⟩, fun r => r * (180 / Real.pi)⟩ :
        MathLib ℝ) ⟨1 / 1024, 0, false⟩
          Player.initial 1).pos.z
          - (Player.initial : Player ℝ).pos.z)
        * ((updatePhysics (⟨Real.sqrt, fun y x => Complex.arg ⟨x, y⟩, fun r => r * (180 / Real.pi)⟩ :
        MathLib ℝ) ⟨1 / 1024, 0, false⟩
          Player.initial 1).pos.z
          - (Player.initial : Player ℝ).pos.z)) = 0 := by
    norm_num [updatePhysics, beforeCollide, collide, integrate, applyGravity, jump, steer,
      length2, eps, Vec3.add, Vec3.scale, normalize, inversesqrt, Player.initial, Player.default]
  have hB : Real.sqrt (((updatePhysics (⟨Real.sqrt, fun y x => Complex.arg ⟨x, y⟩, fun r => r * (180 / Real.pi)⟩ :
        MathLib ℝ) ⟨1, 0, false⟩
          { (Player.initial : Player ℝ) with moveSpeed := -1 } 1).pos.x
          - ({ (Player.initial : Player ℝ) with moveSpeed := -1 } : Player ℝ).pos.x)
        * ((updatePhysics (⟨Real.sqrt, fun y x => Complex.arg ⟨x, y⟩, fun r => r * (180 / Real.pi)⟩ :
        MathLib ℝ) ⟨1, 0, false⟩
          { (Player.initial : Player ℝ) with moveSpeed := -1 } 1).pos.x
          - ({ (Player.initial : Player ℝ) with moveSpeed := -1 } : Player ℝ).pos.x)
      + ((updatePhysics (⟨Real.sqrt, fun y x => Complex.arg ⟨x, y⟩, fun r => r * (180 / Real.pi)⟩ :
        MathLib ℝ) ⟨1, 0, false⟩
          { (Player.initial : Player ℝ) with moveSpeed := -1 } 1).pos.z
          - ({ (Player.initial : Player ℝ) with moveSpeed := -1 } : Player ℝ).pos.z)
        * ((updatePhysics (⟨Real.sqrt, fun y x => Complex.arg ⟨x, y⟩, fun r => r * (180 / Real.pi)⟩ :
        MathLib ℝ) ⟨1, 0, false⟩
          { (Player.initial : Player ℝ) with moveSpeed := -1 } 1).pos.z
          - ({ (Player.initial : Player ℝ) with moveSpeed := -1 } : Player ℝ).pos.z)) = 1 := by
    norm_num [updatePhysics, beforeCollide, collide, integrate, applyGravity, jump, steer,
      length2, eps, Vec3.add, Vec3.scale, normalize, inversesqrt, Player.initial, Player.default]
  refine ⟨by norm_num, hl, ?_, by norm_num [steer, length2, eps], hA, ?_, hB, ?_⟩
  · intro h1
    rw [length, hl] at h1
    have h2 : Real.sqrt (1 / 1048576) * Real.sqrt (1 / 1048576) = 1 / 1048576 :=
      Real.mul_self_sqrt (by norm_num)
    rw [show ((⟨Real.sqrt, fun y x => Complex.arg ⟨x, y⟩, fun r => r * (180 / Real.pi)⟩ :
        MathLib ℝ)).sqrt = Real.sqrt from rfl] at h1
    rw [h1] at h2
    norm_num at h2
  · rw [hA]
    norm_num [Player.initial, Player.default]
  · rw [hB]
    norm_num

/-- C7 (instance): the real square root is exact; axes `(3/5, 4/5)`, the
default player, `dt = 1/64`. -/
theorem wish_unit_speed_exact_witness :
    ((⟨Real.sqrt, fun y x => Complex.arg ⟨x, y⟩, fun r => r * (180 / Real.pi)⟩ :
        MathLib ℝ)).ExactSqrt ∧
    ((3 / 5 : ℝ) * (3 / 5) + (4 / 5) * (4 / 5) > eps) ∧
    length (⟨Real.sqrt, fun y x => Complex.arg ⟨x, y⟩, fun r => r * (180 / Real.pi)⟩ :
        MathLib ℝ) (steer (⟨Real.sqrt, fun y x => Complex.arg ⟨x, y⟩, fun r => r * (180 / Real.pi)⟩ :
        MathLib ℝ) ⟨3 / 5, 4 / 5, false⟩ Player.initial).wish = 1 ∧
    length (⟨Real.sqrt, fun y x => Complex.arg ⟨x, y⟩, fun r => r * (180 / Real.pi)⟩ :
        MathLib ℝ) (steer (⟨Real.sqrt, fun y x => Complex.arg ⟨x, y⟩, fun r => r * (180 / Real.pi)⟩ :
        MathLib ℝ) ⟨3 / 5, 4 / 5, false⟩ Player.initial).horizVel
      = |(Player.initial : Player ℝ).moveSpeed| ∧
    ((⟨Real.sqrt, fun y x => Complex.arg ⟨x, y⟩, fun r => r * (180 / Real.pi)⟩ :
        MathLib ℝ)).sqrt
      (((updatePhysics (⟨Real.sqrt, fun y x => Complex.arg ⟨x, y⟩, fun r => r * (180 / Real.pi)⟩ :
        MathLib ℝ) ⟨3 / 5, 4 / 5, false⟩ Player.initial (1 / 64)).pos.x
          - (Player.initial : Player ℝ).pos.x)
        * ((updatePhysics (⟨Real.sqrt, fun y x => Complex.arg ⟨x, y⟩, fun r => r * (180 / Real.pi)⟩ :
        MathLib ℝ) ⟨3 / 5, 4 / 5, false⟩ Player.initial (1 / 64)).pos.x
          - (Player.initial : Player ℝ).pos.x)
      + ((updatePhysics (⟨Real.sqrt, fun y x => Complex.arg ⟨x, y⟩, fun r => r * (180 / Real.pi)⟩ :
        MathLib ℝ) ⟨3 / 5, 4 / 5, false⟩ Player.initial (1 / 64)).pos.z
          - (Player.initial : Player ℝ).pos.z)
        * ((updatePhysics (⟨Real.sqrt, fun y x => Complex.arg ⟨x, y⟩, fun r => r * (180 / Real.pi)⟩ :
        MathLib ℝ) ⟨3 / 5, 4 / 5, false⟩ Player.initial (1 / 64)).pos.z
          - (Player.initial : Player ℝ).pos.z))
      = |(Player.initial : Player ℝ).moveSpeed| * |(1 / 64 : ℝ)| :=
  ⟨fun x hx => ⟨Real.sqrt_nonneg x, Real.mul_self_sqrt hx⟩, by norm_num [eps],
    wish_unit_speed_exact _ (fun x hx => ⟨Real.sqrt_nonneg x, Real.mul_self_sqrt hx⟩)
      ⟨3 / 5, 4 / 5, false⟩ Player.initial (1 / 64) (by norm_num [eps])⟩

/-- C8 (counterexample): in `float` arithmetic the default player standing at
`pos.z = -2000000` walks forward for `dt = 1/64`.  The step `7/2 * 1/64 = 7/128`
is below half a unit in the last place of 2000000 (which is `1/16`), so
`-2000000 - 7/128` rounds back to `-2000000`: `pos.z` is unchanged, neither
decreased by `moveSpeed*dt` nor strictly smaller. -/
theorem forward_walk_counterexample :
    ({ (Player.initial : Player ℝ) with pos := ⟨0, 0, -2000000⟩ } : Player ℝ).onGround = true ∧
    (0 : ℝ) < ({ (Player.initial : Player ℝ) with pos := ⟨0, 0, -2000000⟩ } : Player ℝ).moveSpeed ∧
    (0 : ℝ) < 1 / 64 ∧
    (updatePhysicsR (⟨Real.sqrt, fun y x => Complex.arg ⟨x, y⟩, fun r => r * (180 / Real.pi)⟩ :
        MathLib ℝ) fl32 ⟨0, 1, false⟩
      { (Player.initial : Player ℝ) with pos := ⟨0, 0, -2000000⟩ } (1 / 64)).pos.z = -2000000 ∧
    (updatePhysicsR (⟨Real.sqrt, fun y x => Complex.arg ⟨x, y⟩, fun r => r * (180 / Real.pi)⟩ :
        MathLib ℝ) fl32 ⟨0, 1, false⟩
      { (Player.initial : Player ℝ) with pos := ⟨0, 0, -2000000⟩ } (1 / 64)).pos.z
      ≠ ({ (Player.initial : Player ℝ) with pos := ⟨0, 0, -2000000⟩ } : Player ℝ).pos.z
        - ({ (Player.initial : Player ℝ) with pos := ⟨0, 0, -2000000⟩ } : Player ℝ).moveSpeed * (1 / 64) ∧
    ¬ ((updatePhysicsR (⟨Real.sqrt, fun y x => Complex.arg ⟨x, y⟩, fun r => r * (180 / Real.pi)⟩ :
        MathLib ℝ) fl32 ⟨0, 1, false⟩
      { (Player.initial : Player ℝ) with pos := ⟨0, 0, -2000000⟩ } (1 / 64)).pos.z
        < ({ (Player.initial : Player ℝ) with pos := ⟨0, 0, -2000000⟩ } : Player ℝ).pos.z) := by
  have hz := updatePhysicsR_walk_eval
  refine ⟨rfl, by norm_num [Player.initial, Player.default], by norm_num, hz, ?_, ?_⟩
  · rw [hz]
    norm_num [Player.initial, Player.default]
  · rw [hz]
    norm_num

/-- C8 (instance): over the reals `sqrt 1 = 1`, `atan2 0 1 = 0` and
`degrees 0 = 0`.  First with `float` rounding, which is monotone, fixes 0, 1,
-1, 180, `-2000000` and `-7/2` and rounds `1/1000000` below 1: the default
player at `pos.z = -2000000` walks forward for `dt = 1/64`.  Then in exact
arithmetic (the identity as rounding): the default player walks forward for
`dt = 1/64`. -/
theorem forward_walk_witness :
    Real.sqrt 1 = 1 ∧ Complex.arg ⟨1, 0⟩ = 0 ∧ (0 : ℝ) * (180 / Real.pi) = 0 ∧
    (Monotone (fl32 : ℝ → ℝ) ∧ fl32 (0 : ℝ) = 0 ∧ fl32 (1 : ℝ) = 1 ∧ fl32 (-1 : ℝ) = -1 ∧
      fl32 (180 : ℝ) = 180 ∧ fl32 (1 / 1000000 : ℝ) < 1 ∧
      fl32 ({ (Player.initial : Player ℝ) with pos := ⟨0, 0, -2000000⟩ } : Player ℝ).pos.x
        = ({ (Player.initial : Player ℝ) with pos := ⟨0, 0, -2000000⟩ } : Player ℝ).pos.x ∧
      fl32 ({ (Player.initial : Player ℝ) with pos := ⟨0, 0, -2000000⟩ } : Player ℝ).pos.z
        = ({ (Player.initial : Player ℝ) with pos := ⟨0, 0, -2000000⟩ } : Player ℝ).pos.z ∧
      fl32 (-({ (Player.initial : Player ℝ) with pos := ⟨0, 0, -2000000⟩ } : Player ℝ).moveSpeed)
        = -({ (Player.initial : Player ℝ) with pos := ⟨0, 0, -2000000⟩ } : Player ℝ).moveSpeed ∧
      ({ (Player.initial : Player ℝ) with pos := ⟨0, 0, -2000000⟩ } : Player ℝ).onGround = true ∧
      (0 : ℝ) < ({ (Player.initial : Player ℝ) with pos := ⟨0, 0, -2000000⟩ } : Player ℝ).moveSpeed ∧
      (0 : ℝ) < 1 / 64 ∧
      (updatePhysicsR (⟨Real.sqrt, fun y x => Complex.arg ⟨x, y⟩, fun r => r * (180 / Real.pi)⟩ :
        MathLib ℝ) fl32 ⟨0, 1, false⟩
      { (Player.initial : Player ℝ) with pos := ⟨0, 0, -2000000⟩ } (1 / 64)).state = AnimState.Running ∧
      (updatePhysicsR (⟨Real.sqrt, fun y x => Complex.arg ⟨x, y⟩, fun r => r * (180 / Real.pi)⟩ :
        MathLib ℝ) fl32 ⟨0, 1, false⟩
      { (Player.initial : Player ℝ) with pos := ⟨0, 0, -2000000⟩ } (1 / 64)).yaw = 180 ∧
      (updatePhysicsR (⟨Real.sqrt, fun y x => Complex.arg ⟨x, y⟩, fun r => r * (180 / Real.pi)⟩ :
        MathLib ℝ) fl32 ⟨0, 1, false⟩
      { (Player.initial : Player ℝ) with pos := ⟨0, 0, -2000000⟩ } (1 / 64)).pos.x
        = ({ (Player.initial : Player ℝ) with pos := ⟨0, 0, -2000000⟩ } : Player ℝ).pos.x ∧
      (updatePhysicsR (⟨Real.sqrt, fun y x => Complex.arg ⟨x, y⟩, fun r => r * (180 / Real.pi)⟩ :
        MathLib ℝ) fl32 ⟨0, 1, false⟩
      { (Player.initial : Player ℝ) with pos := ⟨0, 0, -2000000⟩ } (1 / 64)).pos.z
        = fl32 (({ (Player.initial : Player ℝ) with pos := ⟨0, 0, -2000000⟩ } : Player ℝ).pos.z
          + fl32 (-({ (Player.initial : Player ℝ) with pos := ⟨0, 0, -2000000⟩ } : Player ℝ).moveSpeed * (1 / 64))) ∧
      (updatePhysicsR (⟨Real.sqrt, fun y x => Complex.arg ⟨x, y⟩, fun r => r * (180 / Real.pi)⟩ :
        MathLib ℝ) fl32 ⟨0, 1, false⟩
      { (Player.initial : Player ℝ) with pos := ⟨0, 0, -2000000⟩ } (1 / 64)).pos.z
        ≤ ({ (Player.initial : Player ℝ) with pos := ⟨0, 0, -2000000⟩ } : Player ℝ).pos.z) ∧
    ((Player.initial : Player ℝ).onGround = true ∧
      (0 : ℝ) < (Player.initial : Player ℝ).moveSpeed ∧ (0 : ℝ) < 1 / 64 ∧
      (updatePhysicsR (⟨Real.sqrt, fun y x => Complex.arg ⟨x, y⟩, fun r => r * (180 / Real.pi)⟩ :
        MathLib ℝ) (fun x => x) ⟨0, 1, false⟩ Player.initial (1 / 64)).state = AnimState.Running ∧
      (updatePhysicsR (⟨Real.sqrt, fun y x => Complex.arg ⟨x, y⟩, fun r => r * (180 / Real.pi)⟩ :
        MathLib ℝ) (fun x => x) ⟨0, 1, false⟩ Player.initial (1 / 64)).yaw = 180 ∧
      (updatePhysicsR (⟨Real.sqrt, fun y x => Complex.arg ⟨x, y⟩, fun r => r * (180 / Real.pi)⟩ :
        MathLib ℝ) (fun x => x) ⟨0, 1, false⟩ Player.initial (1 / 64)).pos.x
        = (Player.initial : Player ℝ).pos.x ∧
      (updatePhysicsR (⟨Real.sqrt, fun y x => Complex.arg ⟨x, y⟩, fun r => r * (180 / Real.pi)⟩ :
        MathLib ℝ) (fun x => x) ⟨0, 1, false⟩ Player.initial (1 / 64)).pos.z
        = (Player.initial : Player ℝ).pos.z - (Player.initial : Player ℝ).moveSpeed * (1 / 64) ∧
      (updatePhysicsR (⟨Real.sqrt, fun y x => Complex.arg ⟨x, y⟩, fun r => r * (180 / Real.pi)⟩ :
        MathLib ℝ) (fun x => x) ⟨0, 1, false⟩ Player.initial (1 / 64)).pos.z
        < (Player.initial : Player ℝ).pos.z) := by
  have harg : Complex.arg ⟨1, 0⟩ = 0 := by
    rw [show (⟨1, 0⟩ : ℂ) = 1 from Complex.ext rfl rfl]
    exact Complex.arg_one
  have hspeed : (0 : ℝ) < (Player.initial : Player ℝ).moveSpeed := by
    norm_num [Player.initial, Player.default]
  have heps : fl32 (1 / 1000000 : ℝ) < 1 := by
    rw [fl32_eps]; norm_num
  have hm : fl32 (-({ (Player.initial : Player ℝ) with pos := ⟨0, 0, -2000000⟩ } : Player ℝ).moveSpeed)
      = -({ (Player.initial : Player ℝ) with pos := ⟨0, 0, -2000000⟩ } : Player ℝ).moveSpeed := by
    have : ({ (Player.initial : Player ℝ) with pos := ⟨0, 0, -2000000⟩ } : Player ℝ).moveSpeed = 7 / 2 := rfl
    rw [this]; exact fl32_moveSpeed
  have hR := forward_walk (⟨Real.sqrt, fun y x => Complex.arg ⟨x, y⟩, fun r => r * (180 / Real.pi)⟩ :
        MathLib ℝ) fl32 Real.sqrt_one harg (zero_mul _) fl32_monotone
      fl32_zero fl32_one fl32_neg_one fl32_180 heps
      { (Player.initial : Player ℝ) with pos := ⟨0, 0, -2000000⟩ } (1 / 64) fl32_zero fl32_far hm rfl
      hspeed (by norm_num)
  have h := forward_walk (⟨Real.sqrt, fun y x => Complex.arg ⟨x, y⟩, fun r => r * (180 / Real.pi)⟩ :
        MathLib ℝ) (fun x => x) Real.sqrt_one harg (zero_mul _) (fun _ _ hab => hab)
      rfl rfl rfl rfl (by norm_num) Player.initial (1 / 64) rfl rfl rfl rfl hspeed
      (by norm_num)
  exact ⟨Real.sqrt_one, harg, zero_mul _,
    ⟨fl32_monotone, fl32_zero, fl32_one, fl32_neg_one, fl32_180, heps, fl32_zero, fl32_far, hm,
      rfl, hspeed, by norm_num, hR.1, hR.2.1, hR.2.2.1, hR.2.2.2.1, hR.2.2.2.2.1⟩,
    ⟨rfl, hspeed, by norm_num, h.1, h.2.1, h.2.2.1, (h.2.2.2.2.2 (fun _ => rfl)).1,
      (h.2.2.2.2.2 (fun _ => rfl)).2⟩⟩

/-- C10 (counterexample): the default player (jump speed 5, gravity 12) jumps
from rest with `dt = 1/4`.  After the jump frame it is airborne at height
`1/2`, while the projectile formula gives `7/8` at `t = 1/4`; after one more
frame it is airborne at height `1/4`, while the formula gives `1` at `t = 1/2`
(and `7/8` at `t = 1/4`); after the third frame it is on the ground, at
`t = 3/4`, not at `2*5/12`. -/
theorem jump_trajectory_counterexample :
    (Player.initial : Player ℝ).onGround = true ∧
    (Player.initial : Player ℝ).pos.y = 0 ∧ (Player.initial : Player ℝ).vel.y = 0 ∧
    (runFrames (⟨Real.sqrt, fun y x => Complex.arg ⟨x, y⟩, fun r => r * (180 / Real.pi)⟩ :
        MathLib ℝ) Player.initial (jumpFrames (1 / 4) 0)).onGround = false ∧
    (runFrames (⟨Real.sqrt, fun y x => Complex.arg ⟨x, y⟩, fun r => r * (180 / Real.pi)⟩ :
        MathLib ℝ) Player.initial (jumpFrames (1 / 4) 0)).pos.y = 1 / 2 ∧
    (runFrames (⟨Real.sqrt, fun y x => Complex.arg ⟨x, y⟩, fun r => r * (180 / Real.pi)⟩ :
        MathLib ℝ) Player.initial (jumpFrames (1 / 4) 0)).pos.y
      ≠ (Player.initial : Player ℝ).jumpSpeed * (1 * (1 / 4))
        - (Player.initial : Player ℝ).gravity * (1 * (1 / 4)) ^ 2 / 2 ∧
    (runFrames (⟨Real.sqrt, fun y x => Complex.arg ⟨x, y⟩, fun r => r * (180 / Real.pi)⟩ :
        MathLib ℝ) Player.initial (jumpFrames (1 / 4) 1)).onGround = false ∧
    (runFrames (⟨Real.sqrt, fun y x => Complex.arg ⟨x, y⟩, fun r => r * (180 / Real.pi)⟩ :
        MathLib ℝ) Player.initial (jumpFrames (1 / 4) 1)).pos.y = 1 / 4 ∧
    (runFrames (⟨Real.sqrt, fun y x => Complex.arg ⟨x, y⟩, fun r => r * (180 / Real.pi)⟩ :
        MathLib ℝ) Player.initial (jumpFrames (1 / 4) 1)).pos.y
      ≠ (Player.initial : Player ℝ).jumpSpeed * (2 * (1 / 4))
        - (Player.initial : Player ℝ).gravity * (2 * (1 / 4)) ^ 2 / 2 ∧
    (runFrames (⟨Real.sqrt, fun y x => Complex.arg ⟨x, y⟩, fun r => r * (180 / Real.pi)⟩ :
        MathLib ℝ) Player.initial (jumpFrames (1 / 4) 1)).pos.y
      ≠ (Player.initial : Player ℝ).jumpSpeed * (1 * (1 / 4))
        - (Player.initial : Player ℝ).gravity * (1 * (1 / 4)) ^ 2 / 2 ∧
    (runFrames (⟨Real.sqrt, fun y x => Complex.arg ⟨x, y⟩, fun r => r * (180 / Real.pi)⟩ :
        MathLib ℝ) Player.initial (jumpFrames (1 / 4) 2)).onGround = true ∧
    (3 * (1 / 4) : ℝ) ≠ 2 * (Player.initial : Player ℝ).jumpSpeed
      / (Player.initial : Player ℝ).gravity := by
  refine ⟨rfl, rfl, rfl, ?_, ?_, ?_, ?_, ?_, ?_, ?_, ?_, ?_⟩ <;>
    norm_num [runFrames, jumpFrames, updatePhysics, beforeCollide, collide, integrate, applyGravity,
      jump, steer, length2, eps, Vec3.add, Vec3.scale, Player.initial, Player.default]

/-- C10 (instance): the default player jumps from rest with `dt = 1/4`.  After
the jump frame and one further frame, at `t = 1/2`, `12 * (1/2 + 1/4) < 10`
and the player is airborne; after one more frame, at `t = 3/4`,
`12 * (3/4 + 1/4) ≥ 10` and the player has landed. -/
theorem jump_trajectory_discrete_witness :
    (Player.initial : Player ℝ).onGround = true ∧
    (Player.initial : Player ℝ).pos.y = 0 ∧
    (0 : ℝ) < 1 / 4 ∧
    (0 : ℝ) < (Player.initial : Player ℝ).gravity ∧
    (runFrames (⟨Real.sqrt, fun y x => Complex.arg ⟨x, y⟩, fun r => r * (180 / Real.pi)⟩ :
        MathLib ℝ) Player.initial (jumpFrames (1 / 4) 1)).onGround = false ∧
    (runFrames (⟨Real.sqrt, fun y x => Complex.arg ⟨x, y⟩, fun r => r * (180 / Real.pi)⟩ :
        MathLib ℝ) Player.initial (jumpFrames (1 / 4) 1)).vel.y
      = (Player.initial : Player ℝ).jumpSpeed
        - (Player.initial : Player ℝ).gravity * (((1 : Nat) + 1 : ℝ) * (1 / 4)) ∧
    (runFrames (⟨Real.sqrt, fun y x => Complex.arg ⟨x, y⟩, fun r => r * (180 / Real.pi)⟩ :
        MathLib ℝ) Player.initial (jumpFrames (1 / 4) 1)).pos.y
      = (Player.initial : Player ℝ).jumpSpeed * (((1 : Nat) + 1 : ℝ) * (1 / 4))
        - (Player.initial : Player ℝ).gravity * (((1 : Nat) + 1 : ℝ) * (1 / 4))
          * ((((1 : Nat) + 1 : ℝ) * (1 / 4)) + 1 / 4) / 2 ∧
    (runFrames (⟨Real.sqrt, fun y x => Complex.arg ⟨x, y⟩, fun r => r * (180 / Real.pi)⟩ :
        MathLib ℝ) Player.initial (jumpFrames (1 / 4) 1)).pos.y
      < (Player.initial : Player ℝ).jumpSpeed ^ 2
        / (2 * (Player.initial : Player ℝ).gravity) ∧
    (runFrames (⟨Real.sqrt, fun y x => Complex.arg ⟨x, y⟩, fun r => r * (180 / Real.pi)⟩ :
        MathLib ℝ) Player.initial (jumpFrames (1 / 4) 1)).pos.y
      ≤ ((Player.initial : Player ℝ).jumpSpeed
          - (Player.initial : Player ℝ).gravity * (1 / 4) / 2) ^ 2
        / (2 * (Player.initial : Player ℝ).gravity) ∧
    (runFrames (⟨Real.sqrt, fun y x => Complex.arg ⟨x, y⟩, fun r => r * (180 / Real.pi)⟩ :
        MathLib ℝ) Player.initial (jumpFrames (1 / 4) 2)).onGround = true ∧
    (runFrames (⟨Real.sqrt, fun y x => Complex.arg ⟨x, y⟩, fun r => r * (180 / Real.pi)⟩ :
        MathLib ℝ) Player.initial (jumpFrames (1 / 4) 2)).vel.y = 0 ∧
    (runFrames (⟨Real.sqrt, fun y x => Complex.arg ⟨x, y⟩, fun r => r * (180 / Real.pi)⟩ :
        MathLib ℝ) Player.initial (jumpFrames (1 / 4) 2)).pos.y = 0 := by
  have hgrav : (0 : ℝ) < (Player.initial : Player ℝ).gravity := by
    norm_num [Player.initial, Player.default]
  have h := jump_trajectory_discrete (⟨Real.sqrt, fun y x => Complex.arg ⟨x, y⟩, fun r => r * (180 / Real.pi)⟩ :
        MathLib ℝ) Player.initial (1 / 4) 1 rfl rfl (by norm_num) hgrav
  have hair : (runFrames (⟨Real.sqrt, fun y x => Complex.arg ⟨x, y⟩, fun r => r * (180 / Real.pi)⟩ :
        MathLib ℝ) Player.initial (jumpFrames (1 / 4) 1)).onGround = false :=
    h.1.mpr (by norm_num [Player.initial, Player.default])
  have h2 := jump_trajectory_discrete (⟨Real.sqrt, fun y x => Complex.arg ⟨x, y⟩, fun r => r * (180 / Real.pi)⟩ :
        MathLib ℝ) Player.initial (1 / 4) 2 rfl rfl (by norm_num) hgrav
  have hland : (runFrames (⟨Real.sqrt, fun y x => Complex.arg ⟨x, y⟩, fun r => r * (180 / Real.pi)⟩ :
        MathLib ℝ) Player.initial (jumpFrames (1 / 4) 2)).onGround = true := by
    have hn : ¬ (runFrames (⟨Real.sqrt, fun y x => Complex.arg ⟨x, y⟩, fun r => r * (180 / Real.pi)⟩ :
        MathLib ℝ) Player.initial (jumpFrames (1 / 4) 2)).onGround = false := fun hf =>
      absurd (h2.1.mp hf) (by norm_num [Player.initial, Player.default])
    simpa using hn
  exact ⟨rfl, rfl, by norm_num, hgrav, hair, (h.2.1 hair).1, (h.2.1 hair).2.1,
    (h.2.1 hair).2.2, h.2.2.2, hland, (h2.2.2.1 hland).1, (h2.2.2.1 hland).2⟩

end Claims

end SkeletalAnimation
